import Mathlib

/-!
Credential service: validation, hashing and request handlers.

A shallow embedding of the Go sources `http/validation.go`, `api/auth.go`,
`api/api.go` and `http/router.go`.

* A Go `string` is a finite sequence of bytes (`GoString`); `len` is its
  number of bytes and `for _, r := range s` walks the UTF-8 decoding of it.
* A Go `error` is represented by its message (`err.Error()`); `nil` is `none`.
* Functions of the standard library and of third-party packages that the
  sources call are either transcribed (UTF-8 decoding, the Latin-1 part of the
  `unicode` tables, `strings.Contains`, `strings.TrimSpace`, `http.StatusText`)
  or collected as fields of the structure `Lib`.
-/

namespace Credential

/-! ## Strings -/

/-- A byte. -/
abbrev byte := Fin 256

/-- A Go string: a sequence of bytes. -/
abbrev GoString := List byte

/-- The UTF-8 encoding of one code point (`utf8.AppendRune` on a valid rune). -/
def encodeRune (r : Nat) : GoString :=
  if r < 0x80 then [Fin.ofNat r]
  else if r < 0x800 then [Fin.ofNat (0xC0 + r / 64), Fin.ofNat (0x80 + r % 64)]
  else if r < 0x10000 then
    [Fin.ofNat (0xE0 + r / 4096), Fin.ofNat (0x80 + r / 64 % 64), Fin.ofNat (0x80 + r % 64)]
  else
    [Fin.ofNat (0xF0 + r / 262144), Fin.ofNat (0x80 + r / 4096 % 64),
     Fin.ofNat (0x80 + r / 64 % 64), Fin.ofNat (0x80 + r % 64)]

/-- A string literal of the source, as the bytes of its UTF-8 encoding. -/
def str (s : String) : GoString :=
  s.data.flatMap (fun c => encodeRune c.toNat)

/-- The constant `utf8.RuneError`. -/
def RuneError : Nat := 0xFFFD

/-- The constant `utf8.RuneSelf`. -/
def RuneSelf : Nat := 0x80

/-- The table `utf8.first` together with `utf8.acceptRanges`, for a leading byte
`b ≥ 0x80`: `none` for an invalid leading byte (entry `xx`), otherwise the
length of the sequence and the accepted range of its second byte. -/
def first (b : Nat) : Option (Nat × Nat × Nat) :=
  if b < 0xC2 then none
  else if b ≤ 0xDF then some (2, 0x80, 0xBF)
  else if b = 0xE0 then some (3, 0xA0, 0xBF)
  else if b ≤ 0xEC then some (3, 0x80, 0xBF)
  else if b = 0xED then some (3, 0x80, 0x9F)
  else if b ≤ 0xEF then some (3, 0x80, 0xBF)
  else if b = 0xF0 then some (4, 0x90, 0xBF)
  else if b ≤ 0xF3 then some (4, 0x80, 0xBF)
  else if b = 0xF4 then some (4, 0x80, 0x8F)
  else none

/-- The byte of `s` at index `i` as a number (`0` outside the string; every use
below is guarded by a length check, as in the source). -/
def at_ (s : GoString) (i : Nat) : Nat := (s.getD i 0).val

/-- `utf8.DecodeRuneInString`: the first rune of `s` and its width in bytes.
An invalid or truncated sequence decodes to `(RuneError, 1)`. -/
def DecodeRuneInString (s : GoString) : Nat × Nat :=
  if s.length < 1 then (RuneError, 0)
  else
    let s0 := at_ s 0
    if s0 < RuneSelf then (s0, 1)
    else
      match first s0 with
      | none => (RuneError, 1)
      | some (sz, lo, hi) =>
        if s.length < sz then (RuneError, 1)
        else
          let s1 := at_ s 1
          if s1 < lo ∨ hi < s1 then (RuneError, 1)
          else if sz ≤ 2 then (s0 % 32 * 64 + s1 % 64, 2)
          else
            let s2 := at_ s 2
            if s2 < 0x80 ∨ 0xBF < s2 then (RuneError, 1)
            else if sz ≤ 3 then (s0 % 16 * 4096 + s1 % 64 * 64 + s2 % 64, 3)
            else
              let s3 := at_ s 3
              if s3 < 0x80 ∨ 0xBF < s3 then (RuneError, 1)
              else (s0 % 8 * 262144 + s1 % 64 * 4096 + s2 % 64 * 64 + s3 % 64, 4)

/-- The loop `for _, r := range s`, started `skip` bytes before the next rune:
the runes visited, in order. -/
def rangeFrom : Nat → GoString → List Nat
  | _, [] => []
  | 0, b :: rest =>
    (DecodeRuneInString (b :: rest)).1 ::
      rangeFrom ((DecodeRuneInString (b :: rest)).2 - 1) rest
  | skip + 1, _ :: rest => rangeFrom skip rest

/-- The runes that `for _, r := range s` visits. -/
def runes (s : GoString) : List Nat := rangeFrom 0 s

/-- `utf8.RuneCountInString`: the number of code points of `s`. -/
def RuneCountInString (s : GoString) : Nat := (runes s).length

/-! ## The `unicode` classes -/

/-- The Latin-1 entries of `unicode.properties` that carry a letter bit
(`pLmask`). -/
def latin1Letter (r : Nat) : Bool :=
  (0x41 ≤ r && r ≤ 0x5A) || (0x61 ≤ r && r ≤ 0x7A) || r == 0xAA || r == 0xB5 || r == 0xBA ||
  (0xC0 ≤ r && r ≤ 0xD6) || (0xD8 ≤ r && r ≤ 0xF6) || (0xF8 ≤ r && r ≤ 0xFF)

/-- The Latin-1 entries of `unicode.properties` that carry the numeral bit
(`pN`). -/
def latin1Number (r : Nat) : Bool :=
  (0x30 ≤ r && r ≤ 0x39) || r == 0xB2 || r == 0xB3 || r == 0xB9 || (0xBC ≤ r && r ≤ 0xBE)

/-- The range table `unicode.White_Space`. -/
def whiteSpaceTable (r : Nat) : Bool :=
  (0x09 ≤ r && r ≤ 0x0D) || r == 0x20 || r == 0x85 || r == 0xA0 || r == 0x1680 ||
  (0x2000 ≤ r && r ≤ 0x200A) || r == 0x2028 || r == 0x2029 || r == 0x202F || r == 0x205F ||
  r == 0x3000

/-- What the sources use of packages outside the repository and could not be
transcribed here: the `unicode` range tables above Latin-1, `strings.EqualFold`,
`mail.ParseAddress`, the primitives of `bcrypt`, and the clock. -/
structure Lib where
  /-- The result of `isExcludingLatin(unicode.Letter, r)`. -/
  letterExcludingLatin : Nat → Bool
  /-- The result of `isExcludingLatin(unicode.Number, r)`. -/
  numberExcludingLatin : Nat → Bool
  /-- The function `strings.EqualFold`. -/
  EqualFold : GoString → GoString → Bool
  /-- The error of `mail.ParseAddress`, `none` when the address parses. -/
  ParseAddress : GoString → Option GoString
  /-- The sixteen salt bytes read from `rand.Reader`, or the error of the read. -/
  readSalt : Except GoString GoString
  /-- The encoded hash that `bcrypt` derives from password, cost and salt, or
  the error of the key setup. -/
  bcryptHash : GoString → Int → GoString → Except GoString GoString
  /-- The reading of `time.Now().Unix()`. -/
  now : Int

/-- The constant `unicode.MaxLatin1`. -/
def MaxLatin1 : Nat := 0xFF

/-- `unicode.IsLetter`. -/
def IsLetter (L : Lib) (r : Nat) : Bool :=
  if r ≤ MaxLatin1 then latin1Letter r else L.letterExcludingLatin r

/-- `unicode.IsNumber`. -/
def IsNumber (L : Lib) (r : Nat) : Bool :=
  if r ≤ MaxLatin1 then latin1Number r else L.numberExcludingLatin r

/-- `unicode.IsSpace`. -/
def IsSpace (r : Nat) : Bool :=
  if r ≤ MaxLatin1 then
    r == 0x09 || r == 0x0A || r == 0x0B || r == 0x0C || r == 0x0D || r == 0x20 ||
    r == 0x85 || r == 0xA0
  else whiteSpaceTable r

/-! ## `http/validation.go` -/

def minPasswordLength : Nat := 8
def maxPasswordLength : Nat := 128
def maxEmailLength : Nat := 254

def ErrInvalidEmail : GoString := str "invalid email format"
def ErrPasswordTooShort : GoString := str "password must be at least 8 characters"
def ErrPasswordTooLong : GoString := str "password exceeds maximum length"
def ErrPasswordWeak : GoString := str "password must contain at least one letter and one number"
def ErrEmptyField : GoString := str "field cannot be empty"

/-- The body of the loop of `ValidatePassword`: the flags `(hasLetter, hasNumber)`
after visiting the rune `r`. -/
def scanStep (L : Lib) (flags : Bool × Bool) (r : Nat) : Bool × Bool :=
  (if IsLetter L r then true else flags.1, if IsNumber L r then true else flags.2)

/-- `ValidatePassword`: `none` for `nil`, otherwise the error returned. -/
def ValidatePassword (L : Lib) (password : GoString) : Option GoString :=
  if password = [] then some ErrEmptyField
  else if password.length < minPasswordLength then some ErrPasswordTooShort
  else if password.length > maxPasswordLength then some ErrPasswordTooLong
  else
    let flags := (runes password).foldl (scanStep L) (false, false)
    if !flags.1 || !flags.2 then some ErrPasswordWeak
    else none

/-! ## `strings` -/

/-- `strings.HasPrefix`. -/
def HasPrefix : GoString → GoString → Bool
  | _, [] => true
  | [], _ :: _ => false
  | c :: s, d :: p => c == d && HasPrefix s p

/-- `strings.Contains`: `substr` occurs in `s` as a run of consecutive bytes. -/
def Contains : GoString → GoString → Bool
  | [], substr => HasPrefix [] substr
  | c :: s, substr => HasPrefix (c :: s) substr || Contains s substr

/-- The table `strings.asciiSpace`. -/
def asciiSpace (c : Nat) : Bool :=
  c == 0x09 || c == 0x0A || c == 0x0B || c == 0x0C || c == 0x0D || c == 0x20

/-- `strings.TrimLeftFunc`, started `skip` bytes before the next rune: the
string from the first rune on which `f` is false, or the empty string. -/
def trimLeftFrom (f : Nat → Bool) : Nat → GoString → GoString
  | _, [] => []
  | 0, b :: rest =>
    if f (DecodeRuneInString (b :: rest)).1 then
      trimLeftFrom f ((DecodeRuneInString (b :: rest)).2 - 1) rest
    else b :: rest
  | skip + 1, _ :: rest => trimLeftFrom f skip rest

/-- `strings.TrimLeftFunc`. -/
def TrimLeftFunc (s : GoString) (f : Nat → Bool) : GoString := trimLeftFrom f 0 s

/-- `utf8.RuneStart`. -/
def RuneStart (b : Nat) : Bool := b / 64 % 4 != 2

/-- The backwards search of `utf8.DecodeLastRuneInString`
(`for start--; start >= lim; start--`), entered with the decremented `start`:
the value of `start` when the loop is left. -/
def scanBack (s : GoString) (lim : Int) : Nat → Int → Int
  | 0, start => start
  | fuel + 1, start =>
    if start ≥ lim then
      if RuneStart (at_ s start.toNat) then start else scanBack s lim fuel (start - 1)
    else start

/-- `utf8.DecodeLastRuneInString`: the last rune of `s` and its width. -/
def DecodeLastRuneInString (s : GoString) : Nat × Nat :=
  let end_ : Int := s.length
  if end_ = 0 then (RuneError, 0)
  else
    let r := at_ s (end_ - 1).toNat
    if r < RuneSelf then (r, 1)
    else
      let lim : Int := if end_ - 4 < 0 then 0 else end_ - 4
      let start := scanBack s lim 4 (end_ - 2)
      let start := if start < 0 then 0 else start
      let d := DecodeRuneInString (s.drop start.toNat)
      if start + d.2 ≠ end_ then (RuneError, 1) else d

/-- The loop of `strings.lastIndexFunc(s, f, false)` entered with index `i`:
the index of the last rune of `s[0:i]` on which `f` is false, or `-1`. -/
def lastIndexFrom (s : GoString) (f : Nat → Bool) : Nat → Nat → Int
  | 0, _ => -1
  | fuel + 1, i =>
    if i > 0 then
      let d := DecodeLastRuneInString (s.take i)
      if f d.1 == false then ((i - d.2 : Nat) : Int) else lastIndexFrom s f fuel (i - d.2)
    else -1

/-- `strings.TrimRightFunc`. -/
def TrimRightFunc (s : GoString) (f : Nat → Bool) : GoString :=
  let i := lastIndexFrom s f (s.length + 1) s.length
  if i ≥ 0 ∧ at_ s i.toNat ≥ RuneSelf then
    s.take (i.toNat + (DecodeRuneInString (s.drop i.toNat)).2)
  else s.take (i + 1).toNat

/-- `strings.TrimFunc`. -/
def TrimFunc (s : GoString) (f : Nat → Bool) : GoString :=
  TrimRightFunc (TrimLeftFunc s f) f

/-- The second loop of `strings.TrimSpace`, on the reversed string `s[start:stop]`:
ASCII spaces are dropped from the end, and a byte outside ASCII hands over to
`TrimRightFunc`. -/
def trimSpaceStop : GoString → GoString
  | [] => []
  | c :: rev =>
    if c.val ≥ RuneSelf then TrimRightFunc (c :: rev).reverse IsSpace
    else if asciiSpace c.val == false then (c :: rev).reverse
    else trimSpaceStop rev

/-- `strings.TrimSpace`: the first loop drops ASCII spaces from the front, and a
byte outside ASCII hands over to `TrimFunc`. -/
def TrimSpace : GoString → GoString
  | [] => []
  | c :: s =>
    if c.val ≥ RuneSelf then TrimFunc (c :: s) IsSpace
    else if asciiSpace c.val == false then trimSpaceStop (c :: s).reverse
    else TrimSpace s

/-! ## `http/validation.go`, continued -/

/-- `ValidateEmail`: `none` for `nil`, otherwise the error returned. -/
def ValidateEmail (L : Lib) (email : GoString) : Option GoString :=
  if email = [] then some ErrEmptyField
  else if email.length > maxEmailLength then some (str "email exceeds maximum length")
  else
    match L.ParseAddress (TrimSpace email) with
    | some _ => some ErrInvalidEmail
    | none => none

/-! ## `golang.org/x/crypto/bcrypt` and `api/auth.go` -/

def bcryptCost : Int := 12

/-- The constants `bcrypt.MinCost`, `bcrypt.MaxCost` and `bcrypt.DefaultCost`. -/
def MinCost : Int := 4
def MaxCost : Int := 31
def DefaultCost : Int := 10

/-- The decimal digits of a number, as `%d` prints them. -/
def decimal (n : Int) : GoString := str (toString n)

/-- The error `bcrypt.ErrPasswordTooLong`. -/
def bcryptErrPasswordTooLong : GoString := str "bcrypt: password length exceeds 72 bytes"

/-- The message of `bcrypt.InvalidCostError`. -/
def InvalidCostError (cost : Int) : GoString :=
  str "crypto/bcrypt: cost " ++ decimal cost ++ str " is outside allowed inclusive range " ++
    decimal MinCost ++ str ".." ++ decimal MaxCost

/-- `bcrypt.GenerateFromPassword`: a password of more than 72 bytes is refused,
a cost below `MinCost` is replaced by `DefaultCost`, a cost above `MaxCost` is
refused, then the salt is read and the hash derived. -/
def GenerateFromPassword (L : Lib) (password : GoString) (cost : Int) :
    Except GoString GoString :=
  if password.length > 72 then .error bcryptErrPasswordTooLong
  else
    let cost := if cost < MinCost then DefaultCost else cost
    if cost < MinCost ∨ cost > MaxCost then .error (InvalidCostError cost)
    else
      match L.readSalt with
      | .error e => .error e
      | .ok salt => L.bcryptHash password cost salt

/-- `HashPassword`: the stored form, or the error. -/
def HashPassword (L : Lib) (password : GoString) : Except GoString GoString :=
  if password = [] then .error (str "password cannot be empty")
  else
    match GenerateFromPassword L password bcryptCost with
    | .error err => .error err
    | .ok hash => .ok hash

/-! ## `data` and `api/api.go` -/

/-- An argument of a SQL statement. -/
inductive SqlArg where
  | text (s : GoString)
  | int (n : Int)
deriving DecidableEq

/-- The connection `db.Conn`, as far as the sources use it: `Exec` returns the
error of the statement, or else the outcome of `result.RowsAffected()`; `Ping`
returns the error of the ping. -/
structure Store where
  Exec : GoString → List SqlArg → Except GoString (Except GoString Int)
  Ping : Option GoString

def CreateUser : GoString :=
  str "INSERT INTO users (email, password, created) VALUES (?, ?, ?);"

def ResetPassword : GoString :=
  str "UPDATE users SET password = ?, updated = ? WHERE email = ?;"

/-- The struct `API`, as far as the use-cases read it: the connection
`api.db.Conn`, `none` when `api.db` or its `Conn` is nil. -/
structure API where
  db : Option Store

/-- How a call of a use-case ends: it returns an error (`none` for nil), or it
dereferences a nil pointer. -/
inductive Outcome where
  | returned (err : Option GoString)
  | panicked
deriving DecidableEq

/-- `API.HealthCheck`. -/
def API.HealthCheck (api : API) : Option GoString :=
  match api.db with
  | none => some (str "database not initialized")
  | some db => db.Ping

/-- `API.Signup`; the receiver is a pointer, `none` when nil. -/
def API.Signup (L : Lib) (api : Option API) (username password : GoString) : Outcome :=
  match HashPassword L password with
  | .error err => .returned (some (str "failed to hash password: " ++ err))
  | .ok hashedPassword =>
    match api.bind (fun a => a.db) with
    | none => .panicked
    | some db =>
      match db.Exec CreateUser [.text username, .text hashedPassword, .int L.now] with
      | .error err => .returned (some (str "failed to create user: " ++ err))
      | .ok result =>
        match result with
        | .error err => .returned (some (str "failed to get rows affected: " ++ err))
        | .ok rows =>
          if rows ≠ 1 then .returned (some (str "failed to create user: " ++ username))
          else .returned none

/-- `API.Reset`; the receiver is a pointer, `none` when nil. -/
def API.Reset (L : Lib) (api : Option API) (username password : GoString) : Outcome :=
  match HashPassword L password with
  | .error err => .returned (some (str "failed to hash password: " ++ err))
  | .ok hashedPassword =>
    match api.bind (fun a => a.db) with
    | none => .panicked
    | some db =>
      match db.Exec ResetPassword [.text hashedPassword, .int L.now, .text username] with
      | .error err => .returned (some (str "failed to update password: " ++ err))
      | .ok result =>
        match result with
        | .error err => .returned (some (str "failed to get rows affected: " ++ err))
        | .ok rows =>
          if rows ≠ 1 then .returned (some (str "user not found: " ++ username))
          else .returned none

/-! ## `http/router.go` -/

/-- `http.StatusText`. -/
def StatusText (code : Int) : GoString :=
  if code = 100 then str "Continue"
  else if code = 101 then str "Switching Protocols"
  else if code = 102 then str "Processing"
  else if code = 103 then str "Early Hints"
  else if code = 200 then str "OK"
  else if code = 201 then str "Created"
  else if code = 202 then str "Accepted"
  else if code = 203 then str "Non-Authoritative Information"
  else if code = 204 then str "No Content"
  else if code = 205 then str "Reset Content"
  else if code = 206 then str "Partial Content"
  else if code = 207 then str "Multi-Status"
  else if code = 208 then str "Already Reported"
  else if code = 226 then str "IM Used"
  else if code = 300 then str "Multiple Choices"
  else if code = 301 then str "Moved Permanently"
  else if code = 302 then str "Found"
  else if code = 303 then str "See Other"
  else if code = 304 then str "Not Modified"
  else if code = 305 then str "Use Proxy"
  else if code = 307 then str "Temporary Redirect"
  else if code = 308 then str "Permanent Redirect"
  else if code = 400 then str "Bad Request"
  else if code = 401 then str "Unauthorized"
  else if code = 402 then str "Payment Required"
  else if code = 403 then str "Forbidden"
  else if code = 404 then str "Not Found"
  else if code = 405 then str "Method Not Allowed"
  else if code = 406 then str "Not Acceptable"
  else if code = 407 then str "Proxy Authentication Required"
  else if code = 408 then str "Request Timeout"
  else if code = 409 then str "Conflict"
  else if code = 410 then str "Gone"
  else if code = 411 then str "Length Required"
  else if code = 412 then str "Precondition Failed"
  else if code = 413 then str "Request Entity Too Large"
  else if code = 414 then str "Request URI Too Long"
  else if code = 415 then str "Unsupported Media Type"
  else if code = 416 then str "Requested Range Not Satisfiable"
  else if code = 417 then str "Expectation Failed"
  else if code = 418 then str "I\x27m a teapot"
  else if code = 421 then str "Misdirected Request"
  else if code = 422 then str "Unprocessable Entity"
  else if code = 423 then str "Locked"
  else if code = 424 then str "Failed Dependency"
  else if code = 425 then str "Too Early"
  else if code = 426 then str "Upgrade Required"
  else if code = 428 then str "Precondition Required"
  else if code = 429 then str "Too Many Requests"
  else if code = 431 then str "Request Header Fields Too Large"
  else if code = 451 then str "Unavailable For Legal Reasons"
  else if code = 500 then str "Internal Server Error"
  else if code = 501 then str "Not Implemented"
  else if code = 502 then str "Bad Gateway"
  else if code = 503 then str "Service Unavailable"
  else if code = 504 then str "Gateway Timeout"
  else if code = 505 then str "HTTP Version Not Supported"
  else if code = 506 then str "Variant Also Negotiates"
  else if code = 507 then str "Insufficient Storage"
  else if code = 508 then str "Loop Detected"
  else if code = 510 then str "Not Extended"
  else if code = 511 then str "Network Authentication Required"
  else []

def StatusOK : Int := 200
def StatusCreated : Int := 201
def StatusBadRequest : Int := 400
def StatusNotFound : Int := 404
def StatusMethodNotAllowed : Int := 405
def StatusConflict : Int := 409
def StatusUnsupportedMediaType : Int := 415
def StatusInternalServerError : Int := 500
def StatusServiceUnavailable : Int := 503

def MethodPost : GoString := str "POST"
def MethodPut : GoString := str "PUT"

/-- The struct `Response`; `Msg` is a pointer, `none` when nil. -/
structure Response where
  Code : Int
  Error : GoString
  Msg : Option GoString
  Status : GoString
deriving DecidableEq

/-- `ResponseWithMsg`. -/
def ResponseWithMsg (status : Int) (msg : GoString) : Response :=
  { Code := status, Error := [], Msg := some msg, Status := StatusText status }

/-- `ResponseWithError`; the argument `none` is the nil error. -/
def ResponseWithError (status : Int) (err : Option GoString) : Response :=
  let errMsg := match err with
    | some e => e
    | none => []
  { Code := status, Error := errMsg, Msg := none, Status := StatusText status }

/-- The keys of the JSON object that `json.NewEncoder(w).Encode(response)` writes,
in order: the tag `omitempty` leaves `error` out when the string is empty and
`msg` out when the pointer is nil. -/
def jsonKeys (r : Response) : List String :=
  ["code"] ++ (if r.Error = [] then [] else ["error"]) ++
    (if r.Msg = none then [] else ["msg"]) ++ ["status"]

/-- What a handler does that can be observed from outside it, in order. -/
inductive Event where
  /-- A call of `req.ParseForm()`. -/
  | ParseForm
  /-- A call of `r.api.HealthCheck()`. -/
  | HealthCheck
  /-- A call of `r.api.Signup(email, password)`. -/
  | Signup (email password : GoString)
  /-- A call of `r.api.Reset(email, password)`. -/
  | Reset (email password : GoString)
  /-- A call of `r.log.Error(msg, attrs...)`. -/
  | LogError (msg : GoString) (attrs : List (GoString × GoString))
  /-- A call of `JSONResponse(w, response)`: status line and body are written. -/
  | JSONResponse (response : Response)
  /-- A nil pointer is dereferenced. -/
  | Panic
deriving DecidableEq

/-- The struct `Router`; `api` is a pointer, `none` when nil. -/
structure Router where
  api : Option API

/-- The parsed form `req.Form`: its entries in the order in which
`for key, value := range req.Form` visits them. -/
abbrev Form := List (GoString × List GoString)

/-- The request as the handlers read it: the method, the value of
`req.Header.Get("Content-Type")` (empty when the header is absent), and the
outcome of `req.ParseForm()` on the size-limited body. -/
structure Request where
  Method : GoString
  ContentType : GoString
  ParseForm : Except GoString Form

/-- The variables `email`, `password`, `foundEmail`, `foundPassword` of the
handlers. -/
structure Fields where
  email : GoString
  password : GoString
  foundEmail : Bool
  foundPassword : Bool
deriving DecidableEq

/-- The body of the loop over `req.Form`, for one entry. -/
def extractStep (L : Lib) (f : Fields) (entry : GoString × List GoString) : Fields :=
  match entry.2 with
  | [] => f
  | v0 :: _ =>
    let f := if L.EqualFold entry.1 (str "username") then
        { f with email := TrimSpace v0, foundEmail := true }
      else f
    if L.EqualFold entry.1 (str "password") then
      { f with password := v0, foundPassword := true }
    else f

/-- The loop over `req.Form`. -/
def extractFields (L : Lib) (form : Form) : Fields :=
  form.foldl (extractStep L) { email := [], password := [], foundEmail := false,
                               foundPassword := false }

/-- The content-type check of both handlers: the request is refused. -/
def unsupportedContentType (contentType : GoString) : Bool :=
  contentType != [] && !Contains contentType (str "application/x-www-form-urlencoded") &&
    !Contains contentType (str "multipart/form-data")

/-- `Router.health`. -/
def Router.health (r : Router) : List Event :=
  match r.api with
  | some api =>
    match API.HealthCheck api with
    | some err =>
      [.HealthCheck,
       .LogError (str "health check failed: database ping error") [(str "error", err)],
       .JSONResponse (ResponseWithError StatusServiceUnavailable (some (str "service unavailable")))]
    | none => [.HealthCheck, .JSONResponse (ResponseWithMsg StatusOK (str "OK"))]
  | none => [.JSONResponse (ResponseWithMsg StatusOK (str "OK"))]

/-- `Router.pong`. -/
def Router.pong (_r : Router) : List Event :=
  [.JSONResponse (ResponseWithMsg StatusOK (str "PONG"))]

/-- The part of both handlers from `req.ParseForm()` to the end of validation:
the response to write when the request is refused, or the fields to hand to the
use-case. -/
def readCredentials (L : Lib) (req : Request) : Except Response Fields :=
  match req.ParseForm with
  | .error _ => .error (ResponseWithError StatusBadRequest (some (str "invalid form data")))
  | .ok form =>
    let f := extractFields L form
    if !f.foundEmail || !f.foundPassword then
      .error (ResponseWithError StatusBadRequest (some (str "username and password are required")))
    else
      match ValidateEmail L f.email with
      | some err => .error (ResponseWithError StatusBadRequest (some err))
      | none =>
        match ValidatePassword L f.password with
        | some err => .error (ResponseWithError StatusBadRequest (some err))
        | none => .ok f

/-- `Router.signup`. -/
def Router.signup (L : Lib) (r : Router) (req : Request) : List Event :=
  if req.Method ≠ MethodPost then
    [.JSONResponse (ResponseWithError StatusMethodNotAllowed (some (str "method not allowed")))]
  else if unsupportedContentType req.ContentType then
    [.JSONResponse
      (ResponseWithError StatusUnsupportedMediaType (some (str "unsupported content type")))]
  else
    match readCredentials L req with
    | .error response => [.ParseForm, .JSONResponse response]
    | .ok f =>
      match API.Signup L r.api f.email f.password with
      | .panicked => [.ParseForm, .Signup f.email f.password, .Panic]
      | .returned (some err) =>
        if Contains err (str "UNIQUE constraint") then
          [.ParseForm, .Signup f.email f.password,
           .JSONResponse (ResponseWithError StatusConflict (some (str "user already exists")))]
        else
          [.ParseForm, .Signup f.email f.password,
           .LogError (str "signup failed") [(str "error", err), (str "email", f.email)],
           .JSONResponse
             (ResponseWithError StatusInternalServerError (some (str "failed to create user")))]
      | .returned none =>
        [.ParseForm, .Signup f.email f.password,
         .JSONResponse (ResponseWithMsg StatusCreated (str "Signup Successful"))]

/-- `Router.resetPassword`. -/
def Router.resetPassword (L : Lib) (r : Router) (req : Request) : List Event :=
  if req.Method ≠ MethodPut then
    [.JSONResponse (ResponseWithError StatusMethodNotAllowed (some (str "method not allowed")))]
  else if unsupportedContentType req.ContentType then
    [.JSONResponse
      (ResponseWithError StatusUnsupportedMediaType (some (str "unsupported content type")))]
  else
    match readCredentials L req with
    | .error response => [.ParseForm, .JSONResponse response]
    | .ok f =>
      match API.Reset L r.api f.email f.password with
      | .panicked => [.ParseForm, .Reset f.email f.password, .Panic]
      | .returned (some err) =>
        [.ParseForm, .Reset f.email f.password,
         .LogError (str "password reset failed") [(str "error", err), (str "email", f.email)],
         .JSONResponse
           (ResponseWithError StatusNotFound
             (some (str "user not found or password update failed")))]
      | .returned none =>
        [.ParseForm, .Reset f.email f.password,
         .JSONResponse (ResponseWithMsg StatusOK (str "Password Updated"))]

/-- The responses that a run writes. -/
def responses : List Event → List Response
  | [] => []
  | .JSONResponse r :: t => r :: responses t
  | _ :: t => responses t

/-- The run calls a use-case. -/
def callsUseCase : List Event → Bool
  | [] => false
  | .Signup _ _ :: _ => true
  | .Reset _ _ :: _ => true
  | _ :: t => callsUseCase t

/-- The run calls `req.ParseForm()`. -/
def parsesForm : List Event → Bool
  | [] => false
  | .ParseForm :: _ => true
  | _ :: t => parsesForm t

/-! ## Notions of the specification -/

/-- A byte is an ASCII character. -/
def isASCII (b : byte) : Prop := b.val < 0x80

instance (b : byte) : Decidable (isASCII b) := by unfold isASCII; infer_instance

/-- A byte is an ASCII letter, `A`..`Z` or `a`..`z`. -/
def asciiLetter (b : byte) : Bool :=
  (0x41 ≤ b.val && b.val ≤ 0x5A) || (0x61 ≤ b.val && b.val ≤ 0x7A)

/-- A byte is an ASCII digit, `0`..`9`. -/
def asciiDigit (b : byte) : Bool := 0x30 ≤ b.val && b.val ≤ 0x39

/-- The outcome that the password policy prescribes, with the length counted in
code points: emptiness, minimum length, maximum length, composition. -/
def passwordPolicy (count : Nat) (hasLetter hasDigit : Bool) : Option GoString :=
  if count = 0 then some ErrEmptyField
  else if count < 8 then some ErrPasswordTooShort
  else if count > 128 then some ErrPasswordTooLong
  else if hasLetter && hasDigit then none
  else some ErrPasswordWeak

/-- Exactly one of `msg` and `error` is set in a response: `msg` is a non-nil
pointer and `error` is empty, or `msg` is nil and `error` is non-empty. -/
def oneOfMsgError (r : Response) : Prop :=
  (r.Msg ≠ none ∧ r.Error = []) ∨ (r.Msg = none ∧ r.Error ≠ [])

instance (r : Response) : Decidable (oneOfMsgError r) := by unfold oneOfMsgError; infer_instance

/-- The field `name` of a form is absent or blank: every entry whose key equals
`name` ignoring case has no value, or a first value that is empty after `trim`. -/
def fieldBlank (L : Lib) (form : Form) (name : GoString) (trim : GoString → GoString) : Bool :=
  form.all fun entry =>
    !L.EqualFold entry.1 name ||
      match entry.2 with
      | [] => true
      | v0 :: _ => trim v0 == []

/-! ## A sample environment

Concrete values of the external packages and of the store, for running the
definitions on concrete requests. -/

/-- The comparison of `strings.EqualFold` on two bytes of ASCII strings: equal,
or an upper-case letter and its lower-case form. -/
def foldEqByte (c d : byte) : Bool :=
  c == d ||
    (0x41 ≤ min c.val d.val && min c.val d.val ≤ 0x5A && max c.val d.val == min c.val d.val + 0x20)

/-- The loop of `strings.EqualFold` over ASCII strings. -/
def asciiEqualFold : GoString → GoString → Bool
  | [], [] => true
  | c :: s, d :: t => foldEqByte c d && asciiEqualFold s t
  | _, _ => false

/-- A letter, a digit, `-`, `_` or `+`. -/
def atomByte (c : byte) : Bool :=
  asciiLetter c || asciiDigit c || c == 0x2D || c == 0x5F || c == 0x2B

/-- Non-empty runs of `atomByte`s separated by single dots; `need` tells that a
run has to start here. -/
def dotAtom : Bool → GoString → Bool
  | need, [] => !need
  | need, c :: s => if c == 0x2E then !need && dotAtom true s else atomByte c && dotAtom false s

/-- An address `local@domain` whose two parts are dot-atoms of letters, digits,
`-`, `_` and `+`. -/
def plainAddress (s : GoString) : Bool :=
  dotAtom true (s.takeWhile (fun c => c != 0x40)) &&
    match s.dropWhile (fun c => c != 0x40) with
    | [] => false
    | _ :: domain => dotAtom true domain

/-- Sample external packages: no letters or numbers above Latin-1, case folding
of ASCII, addresses of the plain form `local@domain` only, a salt of sixteen
zero bytes, a stand-in for the derived hash, and a fixed clock. -/
def sampleLib : Lib where
  letterExcludingLatin := fun _ => false
  numberExcludingLatin := fun _ => false
  EqualFold := asciiEqualFold
  ParseAddress := fun s => if plainAddress s then none else some (str "mail: no address")
  readSalt := .ok (List.replicate 16 0)
  bcryptHash := fun password cost salt =>
    .ok (str "$2a$" ++ decimal cost ++ str "$" ++ salt ++ password)
  now := 1700000000

/-- A byte that may stand unescaped in a quoted string: printable ASCII or a blank, other
than the quote and the backslash. -/
def quotedText (c : byte) : Bool :=
  0x20 ≤ c.val && c.val < 0x7F && c != 0x22 && c != 0x5C

/-- An address whose local part is a non-empty quoted string and whose domain is a
dot-atom. -/
def quotedAddress : GoString → Bool
  | [] => false
  | q :: s =>
    q == 0x22 && s.takeWhile quotedText != [] &&
      match s.dropWhile quotedText with
      | q' :: a :: domain => q' == 0x22 && a == 0x40 && dotAtom true domain
      | _ => false

/-- The sample packages, with addresses whose local part is a quoted string accepted too, as
`mail.ParseAddress` accepts them. -/
def quotingLib : Lib :=
  { sampleLib with
    ParseAddress := fun s =>
      if plainAddress s || quotedAddress s then none else some (str "mail: no address") }

/-- A store in which every statement affects one row. -/
def sampleStore : Store where
  Exec := fun _ _ => .ok (.ok 1)
  Ping := none

/-- A store in which no statement affects a row. -/
def emptyStore : Store where
  Exec := fun _ _ => .ok (.ok 0)
  Ping := none

/-- A store in which every statement fails on the uniqueness of `users.email`. -/
def duplicateStore : Store where
  Exec := fun _ _ => .error (str "UNIQUE constraint failed: users.email")
  Ping := none

/-- A store that cannot be reached. -/
def brokenStore : Store where
  Exec := fun _ _ => .error (str "database is locked")
  Ping := some (str "database is locked")

/-- A router over the given store. -/
def routerOn (db : Store) : Router := { api := some { db := some db } }

/-- The form with the two fields `username` and `password`. -/
def formOf (username password : GoString) : Form :=
  [(str "username", [username]), (str "password", [password])]

/-- A form-encoded request carrying the two fields. -/
def requestOf (method username password : GoString) : Request :=
  { Method := method, ContentType := str "application/x-www-form-urlencoded",
    ParseForm := .ok (formOf username password) }

/-- A password of `n` code points: `n - 1` times the letter `é` (two bytes each)
and the digit `1`. -/
def accented (n : Nat) : GoString :=
  (List.replicate (n - 1) (str "é")).flatten ++ str "1"

/-- A password of `n` bytes: `n - 1` times the letter `a` and the digit `1`. -/
def plain (n : Nat) : GoString := List.replicate (n - 1) 0x61 ++ str "1"

/-! ## Lemmas on strings -/

set_option maxRecDepth 100000

theorem decode_ascii (b : byte) (rest : GoString) (h : b.val < 0x80) :
    DecodeRuneInString (b :: rest) = (b.val, 1) := by
  simp [DecodeRuneInString, at_, RuneSelf, h]

theorem runes_ascii (s : GoString) (h : ∀ b ∈ s, isASCII b) :
    runes s = s.map (fun b => b.val) := by
  unfold runes
  induction s with
  | nil => rfl
  | cons b rest ih =>
    have hb : b.val < 0x80 := h b (List.mem_cons_self _ _)
    have hrest : ∀ c ∈ rest, isASCII c := fun c hc => h c (List.mem_cons_of_mem _ hc)
    simp only [rangeFrom, decode_ascii b rest hb, List.map_cons]
    exact congrArg _ (ih hrest)

theorem scan_fold (L : Lib) (l : List Nat) (x y : Bool) :
    l.foldl (scanStep L) (x, y) = (x || l.any (IsLetter L), y || l.any (IsNumber L)) := by
  induction l generalizing x y with
  | nil => simp
  | cons r t ih =>
    simp only [List.foldl_cons, scanStep, ih, List.any_cons]
    cases IsLetter L r <;> cases IsNumber L r <;> simp

theorem isLetter_ascii (L : Lib) (b : byte) (h : isASCII b) :
    IsLetter L b.val = asciiLetter b := by
  unfold isASCII at h
  have h1 : b.val ≤ MaxLatin1 := by unfold MaxLatin1; omega
  simp only [IsLetter, h1, if_true, latin1Letter, asciiLetter]
  have e1 : (b.val == 0xAA) = false := by simp; omega
  have e2 : (b.val == 0xB5) = false := by simp; omega
  have e3 : (b.val == 0xBA) = false := by simp; omega
  have e4 : (decide (0xC0 ≤ b.val)) = false := by simp; omega
  have e5 : (decide (0xD8 ≤ b.val)) = false := by simp; omega
  have e6 : (decide (0xF8 ≤ b.val)) = false := by simp; omega
  simp only [e1, e2, e3, e4, e5, e6, Bool.false_and, Bool.or_false]

theorem isNumber_ascii (L : Lib) (b : byte) (h : isASCII b) :
    IsNumber L b.val = asciiDigit b := by
  unfold isASCII at h
  have h1 : b.val ≤ MaxLatin1 := by unfold MaxLatin1; omega
  simp only [IsNumber, h1, if_true, latin1Number, asciiDigit]
  have e1 : (b.val == 0xB2) = false := by simp; omega
  have e2 : (b.val == 0xB3) = false := by simp; omega
  have e3 : (b.val == 0xB9) = false := by simp; omega
  have e4 : (decide (0xBC ≤ b.val)) = false := by simp; omega
  simp only [e1, e2, e3, e4, Bool.false_and, Bool.or_false]

theorem any_ascii (s : GoString) (f : Nat → Bool) (g : byte → Bool)
    (h : ∀ b ∈ s, f b.val = g b) : (s.map (fun b => b.val)).any f = s.any g := by
  induction s with
  | nil => rfl
  | cons b rest ih =>
    simp only [List.map_cons, List.any_cons, h b (List.mem_cons_self _ _)]
    rw [ih (fun c hc => h c (List.mem_cons_of_mem _ hc))]

/-- A plaintext of more than 72 bytes is refused with the error of `bcrypt`. -/
theorem hashPassword_long (L : Lib) (plaintext : GoString) (hlen : plaintext.length > 72) :
    HashPassword L plaintext = .error bcryptErrPasswordTooLong := by
  have he : plaintext ≠ [] := by
    intro h0
    rw [h0] at hlen
    simp at hlen
  simp [HashPassword, he, GenerateFromPassword, hlen]

/-- The flags of `ValidatePassword` after its loop. -/
theorem validatePassword_eq (L : Lib) (password : GoString) :
    ValidatePassword L password =
      if password = [] then some ErrEmptyField
      else if password.length < 8 then some ErrPasswordTooShort
      else if password.length > 128 then some ErrPasswordTooLong
      else if (runes password).any (IsLetter L) && (runes password).any (IsNumber L) then none
      else some ErrPasswordWeak := by
  unfold ValidatePassword minPasswordLength maxPasswordLength
  simp only [scan_fold, Bool.false_or]
  cases (runes password).any (IsLetter L) <;> cases (runes password).any (IsNumber L) <;> rfl

/-! ## The claims -/

/-- C1: for every password of ASCII characters only, the number of code points is the
number of bytes and `ValidatePassword` returns the reason of the first failing check in
the order emptiness, minimum length 8, maximum length 128, composition (an ASCII letter and
an ASCII digit both occur); so it returns nil exactly when the length is in 8..128 and a
letter and a digit occur. -/
theorem C1_validatePassword_ascii (L : Lib) (password : GoString)
    (h : ∀ b ∈ password, isASCII b) :
    RuneCountInString password = password.length ∧
    ValidatePassword L password =
      passwordPolicy (RuneCountInString password) (password.any asciiLetter)
        (password.any asciiDigit) ∧
    (ValidatePassword L password = none ↔
      8 ≤ RuneCountInString password ∧ RuneCountInString password ≤ 128 ∧
        (∃ b ∈ password, asciiLetter b = true) ∧ (∃ b ∈ password, asciiDigit b = true)) := by
  have hcount : RuneCountInString password = password.length := by
    simp [RuneCountInString, runes_ascii password h]
  have hl : (runes password).any (IsLetter L) = password.any asciiLetter := by
    rw [runes_ascii password h]
    exact any_ascii password _ _ (fun b hb => isLetter_ascii L b (h b hb))
  have hn : (runes password).any (IsNumber L) = password.any asciiDigit := by
    rw [runes_ascii password h]
    exact any_ascii password _ _ (fun b hb => isNumber_ascii L b (h b hb))
  have hval : ValidatePassword L password =
      passwordPolicy (RuneCountInString password) (password.any asciiLetter)
        (password.any asciiDigit) := by
    rw [validatePassword_eq, hcount, hl, hn]
    unfold passwordPolicy
    by_cases he : password = []
    · simp [he]
    · have : password.length ≠ 0 := by simpa using he
      simp [he, this]
  refine ⟨hcount, hval, ?_⟩
  rw [hval]
  unfold passwordPolicy
  simp only [← List.any_eq_true]
  split_ifs with h1 h2 h3 h4
  · simp; omega
  · simp; omega
  · simp; omega
  · simp only [Bool.and_eq_true] at h4
    simp [h4]; omega
  · simp only [Bool.and_eq_true] at h4
    simp only [false_iff, reduceCtorEq]
    intro hh
    exact h4 ⟨hh.2.2.1, hh.2.2.2⟩

/-- The examples of C1: `"abc"` is too short, `"abcdefgh"` is weak, `"abcdefg1"` is valid, and
129 characters are too long. -/
theorem C1_validatePassword_ascii_witness :
    (∀ L, ValidatePassword L (str "abc") = some ErrPasswordTooShort) ∧
    (∀ L, ValidatePassword L (str "abcdefgh") = some ErrPasswordWeak) ∧
    (∀ L, ValidatePassword L (str "abcdefg1") = none) ∧
    (∀ L, ValidatePassword L (List.replicate 128 0x61 ++ str "1") = some ErrPasswordTooLong) :=
  ⟨fun L => (C1_validatePassword_ascii L (str "abc") (by decide)).2.1.trans (by decide),
   fun L => (C1_validatePassword_ascii L (str "abcdefgh") (by decide)).2.1.trans (by decide),
   fun L => (C1_validatePassword_ascii L (str "abcdefg1") (by decide)).2.1.trans (by decide),
   fun L => (C1_validatePassword_ascii L (List.replicate 128 0x61 ++ str "1")
      (by decide)).2.1.trans (by decide)⟩

/-- C2: `ValidatePassword` compares the number of bytes, not of code points, with the two
bounds: a password of 7 code points (six two-byte letters and a digit, 13 bytes) is accepted
instead of being too short, and a password of 100 code points (199 bytes) is refused as too
long. -/
theorem C2_validatePassword_counts_bytes :
    RuneCountInString (accented 7) = 7 ∧ (accented 7).length = 13 ∧
    (∀ L, ValidatePassword L (accented 7) = none) ∧
    RuneCountInString (accented 100) = 100 ∧ (accented 100).length = 199 ∧
    (∀ L, ValidatePassword L (accented 100) = some ErrPasswordTooLong) :=
  ⟨by decide, by decide, fun _ => by rfl, by decide, by decide, fun _ => by rfl⟩

/-- C3 fails on the code: a password of 73 bytes (72 letters and a digit) is not empty and is
accepted by `ValidatePassword`, yet `HashPassword` returns the error of `bcrypt` for a password
of more than 72 bytes, and so it does on every password of more than 72 bytes that
`ValidatePassword` accepts; a signup with the 73-byte password is answered with 500. -/
theorem C3_hashPassword_fails_on_validated :
    plain 73 ≠ [] ∧ (plain 73).length = 73 ∧
    (∀ L, ValidatePassword L (plain 73) = none) ∧
    (∀ L, HashPassword L (plain 73) = .error bcryptErrPasswordTooLong) ∧
    (∀ L password, ValidatePassword L password = none → password.length > 72 →
      HashPassword L password = .error bcryptErrPasswordTooLong) ∧
    responses (Router.signup sampleLib (routerOn sampleStore)
        (requestOf MethodPost (str "user@example.com") (plain 73))) =
      [{ Code := 500, Error := str "failed to create user", Msg := none,
         Status := str "Internal Server Error" }] :=
  ⟨by decide, by decide, fun _ => by rfl, fun _ => by rfl,
   fun L password _ hlen => hashPassword_long L password hlen, by decide⟩

/-- C4, as stated, fails: the username of one space is blank after trimming, and
`ValidateEmail` does not return `ErrEmptyField` for it (with the sample packages it returns
`ErrInvalidEmail`); for 255 spaces it returns the error of the length check. -/
theorem C4_validateEmail_blank_not_empty :
    TrimSpace (str " ") = [] ∧
    (∀ L, ValidateEmail L (str " ") ≠ some ErrEmptyField) ∧
    ValidateEmail sampleLib (str " ") = some ErrInvalidEmail ∧
    TrimSpace (List.replicate 255 0x20) = [] ∧
    (∀ L, ValidateEmail L (List.replicate 255 0x20) = some (str "email exceeds maximum length")) := by
  refine ⟨by decide, ?_, by decide, by decide, fun _ => by rfl⟩
  intro L
  have h : ValidateEmail L (str " ") =
      match L.ParseAddress [] with
      | some _ => some ErrInvalidEmail
      | none => none := rfl
  rw [h]
  cases L.ParseAddress [] with
  | none => exact fun h0 => Option.noConfusion h0
  | some _ =>
    show some ErrInvalidEmail ≠ some ErrEmptyField
    decide

/-- C4, amended: `ValidateEmail` returns `ErrEmptyField` exactly for the empty string: the
emptiness check is made first and on the value as passed, before trimming. A non-empty
username that is blank after trimming gets the error of the length check when it is longer
than 254 bytes, and otherwise the outcome of the address check on the empty string. A value
that is blank after trimming and is trimmed before the call, as the handlers do, gets
`ErrEmptyField`. -/
theorem C4_validateEmail_empty (L : Lib) (email : GoString) :
    (ValidateEmail L email = some ErrEmptyField ↔ email = []) ∧
    (email ≠ [] → TrimSpace email = [] →
      ValidateEmail L email =
        if email.length > 254 then some (str "email exceeds maximum length")
        else match L.ParseAddress [] with
          | some _ => some ErrInvalidEmail
          | none => none) ∧
    (TrimSpace email = [] → ValidateEmail L (TrimSpace email) = some ErrEmptyField) := by
  refine ⟨?_, ?_, ?_⟩
  · constructor
    · intro h
      by_contra he
      unfold ValidateEmail at h
      simp only [he, if_false] at h
      split_ifs at h with hlen
      · revert h; decide
      · cases hp : L.ParseAddress (TrimSpace email) with
        | none => rw [hp] at h; cases h
        | some _ =>
          rw [hp] at h
          have h2 : some ErrInvalidEmail = some ErrEmptyField := h
          revert h2
          decide
    · intro he
      simp [ValidateEmail, he]
  · intro he ht
    simp only [ValidateEmail, he, if_false, ht, maxEmailLength]
  · intro ht
    rw [ht]
    rfl

/-- The amended C4 on the username of one space, trimmed before the call. -/
theorem C4_validateEmail_empty_witness :
    ValidateEmail sampleLib (TrimSpace (str " ")) = some ErrEmptyField :=
  (C4_validateEmail_empty sampleLib (str " ")).2.2 (by decide)

/-! ### The handlers -/

theorem unsupported_iff (contentType : GoString) :
    unsupportedContentType contentType = true ↔
      contentType ≠ [] ∧
      Contains contentType (str "application/x-www-form-urlencoded") = false ∧
      Contains contentType (str "multipart/form-data") = false := by
  unfold unsupportedContentType
  cases contentType <;> simp

/-- Every response with which `readCredentials` refuses a request has code 400. -/
theorem readCredentials_error (L : Lib) (req : Request) (resp : Response)
    (h : readCredentials L req = .error resp) : resp.Code = 400 := by
  unfold readCredentials at h
  split at h
  · cases h; rfl
  · dsimp only at h
    split_ifs at h
    · cases h; rfl
    · split at h
      · cases h; rfl
      · split at h
        · cases h; rfl
        · cases h

/-- When `readCredentials` lets a request through, the form was parsed, both fields were
found and both validators returned nil. -/
theorem readCredentials_ok (L : Lib) (req : Request) (f : Fields)
    (h : readCredentials L req = .ok f) :
    ∃ form, req.ParseForm = .ok form ∧ f = extractFields L form ∧
      f.foundEmail = true ∧ f.foundPassword = true ∧
      ValidateEmail L f.email = none ∧ ValidatePassword L f.password = none := by
  unfold readCredentials at h
  split at h
  · cases h
  · rename_i form hform
    refine ⟨form, hform, ?_⟩
    dsimp only at h
    split_ifs at h with hfound
    split at h
    · cases h
    · rename_i hemail
      split at h
      · cases h
      · rename_i hpassword
        cases h
        simp only [Bool.or_eq_true, Bool.not_eq_true', not_or, Bool.not_eq_false] at hfound
        exact ⟨rfl, hfound.1, hfound.2, hemail, hpassword⟩

theorem signup_calls (L : Lib) (r : Router) (req : Request)
    (h : callsUseCase (Router.signup L r req) = true) :
    req.Method = MethodPost ∧ unsupportedContentType req.ContentType = false ∧
      ∃ f, readCredentials L req = .ok f := by
  unfold Router.signup at h
  split_ifs at h with hm hc
  · simp [callsUseCase] at h
  · simp [callsUseCase] at h
  · refine ⟨not_not.mp hm, by simpa using hc, ?_⟩
    split at h
    · simp [callsUseCase] at h
    · exact ⟨_, by assumption⟩

theorem reset_calls (L : Lib) (r : Router) (req : Request)
    (h : callsUseCase (Router.resetPassword L r req) = true) :
    req.Method = MethodPut ∧ unsupportedContentType req.ContentType = false ∧
      ∃ f, readCredentials L req = .ok f := by
  unfold Router.resetPassword at h
  split_ifs at h with hm hc
  · simp [callsUseCase] at h
  · simp [callsUseCase] at h
  · refine ⟨not_not.mp hm, by simpa using hc, ?_⟩
    split at h
    · simp [callsUseCase] at h
    · exact ⟨_, by assumption⟩

/-- The run of signup on a request that passes the method and content-type checks. -/
theorem signup_passed (L : Lib) (r : Router) (req : Request)
    (hm : req.Method = MethodPost) (hu : unsupportedContentType req.ContentType = false) :
    Router.signup L r req =
      match readCredentials L req with
      | .error response => [.ParseForm, .JSONResponse response]
      | .ok f =>
        match API.Signup L r.api f.email f.password with
        | .panicked => [.ParseForm, .Signup f.email f.password, .Panic]
        | .returned (some err) =>
          if Contains err (str "UNIQUE constraint") then
            [.ParseForm, .Signup f.email f.password,
             .JSONResponse (ResponseWithError StatusConflict (some (str "user already exists")))]
          else
            [.ParseForm, .Signup f.email f.password,
             .LogError (str "signup failed") [(str "error", err), (str "email", f.email)],
             .JSONResponse
               (ResponseWithError StatusInternalServerError (some (str "failed to create user")))]
        | .returned none =>
          [.ParseForm, .Signup f.email f.password,
           .JSONResponse (ResponseWithMsg StatusCreated (str "Signup Successful"))] := by
  simp only [Router.signup, hm, hu, ne_eq, not_true_eq_false, if_false, Bool.false_eq_true]

/-- The run of resetPassword on a request that passes the method and content-type checks. -/
theorem reset_passed (L : Lib) (r : Router) (req : Request)
    (hm : req.Method = MethodPut) (hu : unsupportedContentType req.ContentType = false) :
    Router.resetPassword L r req =
      match readCredentials L req with
      | .error response => [.ParseForm, .JSONResponse response]
      | .ok f =>
        match API.Reset L r.api f.email f.password with
        | .panicked => [.ParseForm, .Reset f.email f.password, .Panic]
        | .returned (some err) =>
          [.ParseForm, .Reset f.email f.password,
           .LogError (str "password reset failed") [(str "error", err), (str "email", f.email)],
           .JSONResponse
             (ResponseWithError StatusNotFound
               (some (str "user not found or password update failed")))]
        | .returned none =>
          [.ParseForm, .Reset f.email f.password,
           .JSONResponse (ResponseWithMsg StatusOK (str "Password Updated"))] := by
  simp only [Router.resetPassword, hm, hu, ne_eq, not_true_eq_false, if_false,
    Bool.false_eq_true]

theorem signup_parses (L : Lib) (r : Router) (req : Request)
    (hm : req.Method = MethodPost) (hu : unsupportedContentType req.ContentType = false) :
    ∃ t, Router.signup L r req = .ParseForm :: t := by
  rw [signup_passed L r req hm hu]
  split
  · exact ⟨_, rfl⟩
  · split
    · exact ⟨_, rfl⟩
    · split_ifs <;> exact ⟨_, rfl⟩
    · exact ⟨_, rfl⟩

theorem reset_parses (L : Lib) (r : Router) (req : Request)
    (hm : req.Method = MethodPut) (hu : unsupportedContentType req.ContentType = false) :
    ∃ t, Router.resetPassword L r req = .ParseForm :: t := by
  rw [reset_passed L r req hm hu]
  split
  · exact ⟨_, rfl⟩
  · split <;> exact ⟨_, rfl⟩

theorem extract_blank_email (L : Lib) (form : Form)
    (h : fieldBlank L form (str "username") TrimSpace = true) (f0 : Fields)
    (h0 : f0.foundEmail = false ∨ f0.email = []) :
    (form.foldl (extractStep L) f0).foundEmail = false ∨
      (form.foldl (extractStep L) f0).email = [] := by
  induction form generalizing f0 with
  | nil => exact h0
  | cons entry rest ih =>
    simp only [fieldBlank, List.all_cons, Bool.and_eq_true] at h
    rw [List.foldl_cons]
    apply ih (by simpa [fieldBlank] using h.2)
    obtain ⟨key, values⟩ := entry
    cases values with
    | nil => simpa [extractStep] using h0
    | cons v0 vs =>
      have h1 := h.1
      simp only [Bool.or_eq_true, Bool.not_eq_true', beq_iff_eq] at h1
      unfold extractStep
      dsimp only
      by_cases hu : L.EqualFold key (str "username") = true
      · have hv : TrimSpace v0 = [] := by
          rcases h1 with h1 | h1
          · rw [hu] at h1; cases h1
          · exact h1
        simp only [hu, if_true, hv]
        split_ifs <;> exact Or.inr rfl
      · simp only [hu, if_false, Bool.false_eq_true]
        split_ifs <;> exact h0

theorem extract_blank_password (L : Lib) (form : Form)
    (h : fieldBlank L form (str "password") id = true) (f0 : Fields)
    (h0 : f0.foundPassword = false ∨ f0.password = []) :
    (form.foldl (extractStep L) f0).foundPassword = false ∨
      (form.foldl (extractStep L) f0).password = [] := by
  induction form generalizing f0 with
  | nil => exact h0
  | cons entry rest ih =>
    simp only [fieldBlank, List.all_cons, Bool.and_eq_true] at h
    rw [List.foldl_cons]
    apply ih (by simpa [fieldBlank] using h.2)
    obtain ⟨key, values⟩ := entry
    cases values with
    | nil => simpa [extractStep] using h0
    | cons v0 vs =>
      have h1 := h.1
      simp only [Bool.or_eq_true, Bool.not_eq_true', beq_iff_eq, id] at h1
      unfold extractStep
      dsimp only
      by_cases hp : L.EqualFold key (str "password") = true
      · have hv : v0 = [] := by
          rcases h1 with h1 | h1
          · rw [hp] at h1; cases h1
          · exact h1
        simp only [hp, if_true, hv, or_true]
      · simp only [hp, if_false, Bool.false_eq_true]
        split_ifs <;> exact h0

/-- A form in which the username or the password is absent or blank is refused by
`readCredentials`. -/
theorem readCredentials_blank (L : Lib) (req : Request) (form : Form)
    (hform : req.ParseForm = .ok form)
    (hblank : fieldBlank L form (str "username") TrimSpace = true ∨
      fieldBlank L form (str "password") id = true) :
    ∃ resp, readCredentials L req = .error resp := by
  cases hr : readCredentials L req with
  | error resp => exact ⟨resp, rfl⟩
  | ok f =>
    exfalso
    obtain ⟨form', hform', hf, hfe, hfp, hve, hvp⟩ := readCredentials_ok L req f hr
    rw [hform] at hform'
    cases hform'
    rcases hblank with hb | hb
    · have := extract_blank_email L form hb
        { email := [], password := [], foundEmail := false, foundPassword := false }
        (Or.inl rfl)
      rw [show form.foldl (extractStep L) _ = f from hf.symm] at this
      rcases this with h1 | h1
      · rw [hfe] at h1; cases h1
      · rw [h1] at hve
        simp [ValidateEmail] at hve
    · have := extract_blank_password L form hb
        { email := [], password := [], foundEmail := false, foundPassword := false }
        (Or.inl rfl)
      rw [show form.foldl (extractStep L) _ = f from hf.symm] at this
      rcases this with h1 | h1
      · rw [hfp] at h1; cases h1
      · rw [h1] at hvp
        simp [ValidatePassword] at hvp

theorem reset_mem (L : Lib) (r : Router) (req : Request) (email password : GoString)
    (h : Event.Reset email password ∈ Router.resetPassword L r req) :
    req.Method = MethodPut ∧ unsupportedContentType req.ContentType = false ∧
      ∃ f, readCredentials L req = .ok f ∧ f.email = email ∧ f.password = password := by
  by_cases hm : req.Method = MethodPut
  · cases hu : unsupportedContentType req.ContentType with
    | true => simp [Router.resetPassword, hm, hu] at h
    | false =>
      refine ⟨hm, rfl, ?_⟩
      rw [reset_passed L r req hm hu] at h
      cases hf : readCredentials L req with
      | error resp => simp [hf] at h
      | ok f =>
        refine ⟨f, rfl, ?_⟩
        simp only [hf] at h
        split at h <;> simp at h <;> exact ⟨h.1.symm, h.2.symm⟩
  · simp [Router.resetPassword, hm] at h

theorem signup_mem (L : Lib) (r : Router) (req : Request) (email password : GoString)
    (h : Event.Signup email password ∈ Router.signup L r req) :
    req.Method = MethodPost ∧ unsupportedContentType req.ContentType = false ∧
      ∃ f, readCredentials L req = .ok f ∧ f.email = email ∧ f.password = password := by
  by_cases hm : req.Method = MethodPost
  · cases hu : unsupportedContentType req.ContentType with
    | true => simp [Router.signup, hm, hu] at h
    | false =>
      refine ⟨hm, rfl, ?_⟩
      rw [signup_passed L r req hm hu] at h
      cases hf : readCredentials L req with
      | error resp => simp [hf] at h
      | ok f =>
        refine ⟨f, rfl, ?_⟩
        simp only [hf] at h
        split at h
        · simp at h; exact ⟨h.1.symm, h.2.symm⟩
        · split_ifs at h <;> simp at h <;> exact ⟨h.1.symm, h.2.symm⟩
        · simp at h; exact ⟨h.1.symm, h.2.symm⟩
  · simp [Router.signup, hm] at h

theorem hasPrefix_mem (s p : GoString) (h : HasPrefix s p = true) : ∀ b ∈ p, b ∈ s := by
  induction p generalizing s with
  | nil => intro b hb; cases hb
  | cons d p ih =>
    cases s with
    | nil => simp [HasPrefix] at h
    | cons c s =>
      simp only [HasPrefix, Bool.and_eq_true, beq_iff_eq] at h
      intro b hb
      rcases List.mem_cons.1 hb with hb | hb
      · rw [hb, ← h.1]; exact List.mem_cons_self _ _
      · exact List.mem_cons_of_mem _ (ih s h.2 b hb)

theorem contains_mem (s substr : GoString) (h : Contains s substr = true) :
    ∀ b ∈ substr, b ∈ s := by
  induction s with
  | nil => exact hasPrefix_mem [] substr (by simpa [Contains] using h)
  | cons c s ih =>
    simp only [Contains, Bool.or_eq_true] at h
    rcases h with h | h
    · exact hasPrefix_mem _ _ h
    · exact fun b hb => List.mem_cons_of_mem _ (ih h b hb)

theorem contains_append_left (pre s substr : GoString) (h : Contains s substr = true) :
    Contains (pre ++ s) substr = true := by
  induction pre with
  | nil => exact h
  | cons c pre ih => simp [Contains, ih]

/-- A prefix without the first byte of `substr` does not change whether `substr` occurs. -/
theorem contains_append_skip (pre s : GoString) (d : byte) (substr : GoString)
    (h : pre.all (fun c => c != d) = true) :
    Contains (pre ++ s) (d :: substr) = Contains s (d :: substr) := by
  induction pre with
  | nil => rfl
  | cons c pre ih =>
    simp only [List.all_cons, Bool.and_eq_true, bne_iff_ne, ne_eq] at h
    have hc : (c == d) = false := by simpa using h.1
    have ih' := ih (by simpa using h.2)
    show Contains (c :: (pre ++ s)) (d :: substr) = Contains s (d :: substr)
    simp only [Contains, HasPrefix, hc, Bool.false_and, Bool.false_or, ih']

/-- A prefix without the letter `U` does not change whether `UNIQUE constraint` occurs. -/
theorem marker_skip (pre s : GoString) (h : pre.all (fun c => c != 0x55) = true) :
    Contains (pre ++ s) (str "UNIQUE constraint") = Contains s (str "UNIQUE constraint") := by
  have e : str "UNIQUE constraint" = 0x55 :: str "NIQUE constraint" := by decide
  rw [e]
  exact contains_append_skip pre s 0x55 _ h

/-- Every error that `API.Signup` returns has a colon in its text. -/
theorem signup_error_colon (L : Lib) (api : Option API) (username password err : GoString)
    (h : API.Signup L api username password = .returned (some err)) : (0x3A : byte) ∈ err := by
  unfold API.Signup at h
  split at h
  · cases h
    exact List.mem_append_left _ (by decide)
  · split at h
    · cases h
    · split at h
      · cases h
        exact List.mem_append_left _ (by decide)
      · split at h
        · cases h
          exact List.mem_append_left _ (by decide)
        · split_ifs at h
          · cases h
            exact List.mem_append_left _ (by decide)
          · cases h

theorem validateEmail_nonempty (L : Lib) (email err : GoString)
    (h : ValidateEmail L email = some err) : err ≠ [] := by
  unfold ValidateEmail at h
  split_ifs at h
  · cases h; decide
  · cases h; decide
  · split at h
    · cases h; decide
    · cases h

theorem validatePassword_nonempty (L : Lib) (password err : GoString)
    (h : ValidatePassword L password = some err) : err ≠ [] := by
  rw [validatePassword_eq] at h
  split_ifs at h <;> cases h <;> decide

/-- Every response with which `readCredentials` refuses a request carries an error string,
no message, and the reason phrase of its code. -/
theorem readCredentials_error_shape (L : Lib) (req : Request) (resp : Response)
    (h : readCredentials L req = .error resp) :
    oneOfMsgError resp ∧ resp.Status = StatusText resp.Code := by
  unfold readCredentials at h
  split at h
  · cases h; exact ⟨by decide, rfl⟩
  · dsimp only at h
    split_ifs at h
    · cases h; exact ⟨by decide, rfl⟩
    · split at h
      · rename_i err herr
        cases h
        exact ⟨Or.inr ⟨rfl, validateEmail_nonempty L _ err herr⟩, rfl⟩
      · split at h
        · rename_i err herr
          cases h
          exact ⟨Or.inr ⟨rfl, validatePassword_nonempty L _ err herr⟩, rfl⟩
        · cases h

/-- C5, as stated, fails for the empty Content-Type: a POST to signup and a PUT to
resetPassword without a Content-Type header are not refused with 415; the form is parsed and
the use-case runs. -/
theorem C5_empty_content_type_not_refused :
    Contains [] (str "application/x-www-form-urlencoded") = false ∧
    Contains [] (str "multipart/form-data") = false ∧
    Router.signup sampleLib (routerOn sampleStore)
        { Method := MethodPost, ContentType := [],
          ParseForm := .ok (formOf (str "user@example.com") (str "Passw0rd")) } =
      [.ParseForm, .Signup (str "user@example.com") (str "Passw0rd"),
       .JSONResponse (ResponseWithMsg 201 (str "Signup Successful"))] ∧
    Router.resetPassword sampleLib (routerOn sampleStore)
        { Method := MethodPut, ContentType := [],
          ParseForm := .ok (formOf (str "user@example.com") (str "NewPass1")) } =
      [.ParseForm, .Reset (str "user@example.com") (str "NewPass1"),
       .JSONResponse (ResponseWithMsg 200 (str "Password Updated"))] := by
  refine ⟨by decide, by decide, by decide, by decide⟩

/-- C5, amended: for every request whose Content-Type value is not empty and contains
neither `application/x-www-form-urlencoded` nor `multipart/form-data`, signup (method POST)
and resetPassword (method PUT) write the 415 response and do nothing else: the form is not
parsed and the use-case is not called. A request with an empty Content-Type value and the
right method is passed on to `req.ParseForm()`. -/
theorem C5_content_type_gate (L : Lib) (r : Router) (req : Request) :
    (req.ContentType ≠ [] →
      Contains req.ContentType (str "application/x-www-form-urlencoded") = false →
      Contains req.ContentType (str "multipart/form-data") = false →
      (req.Method = MethodPost →
        Router.signup L r req =
          [.JSONResponse (ResponseWithError 415 (some (str "unsupported content type")))]) ∧
      (req.Method = MethodPut →
        Router.resetPassword L r req =
          [.JSONResponse (ResponseWithError 415 (some (str "unsupported content type")))])) ∧
    (req.ContentType = [] →
      (req.Method = MethodPost → parsesForm (Router.signup L r req) = true) ∧
      (req.Method = MethodPut → parsesForm (Router.resetPassword L r req) = true)) := by
  constructor
  · intro h0 h1 h2
    have hu : unsupportedContentType req.ContentType = true :=
      (unsupported_iff _).2 ⟨h0, h1, h2⟩
    constructor
    · intro hm
      simp [Router.signup, hm, hu, StatusUnsupportedMediaType]
    · intro hm
      simp [Router.resetPassword, hm, hu, StatusUnsupportedMediaType]
  · intro h0
    have hu : unsupportedContentType req.ContentType = false := by
      rw [h0]; rfl
    constructor
    · intro hm
      obtain ⟨t, ht⟩ := signup_parses L r req hm hu
      rw [ht]; rfl
    · intro hm
      obtain ⟨t, ht⟩ := reset_parses L r req hm hu
      rw [ht]; rfl

/-- The amended C5 on requests with the Content-Type `application/json`. -/
theorem C5_content_type_gate_witness :
    Router.signup sampleLib (routerOn sampleStore)
        { Method := MethodPost, ContentType := str "application/json",
          ParseForm := .ok (formOf (str "user@example.com") (str "Passw0rd")) } =
      [.JSONResponse (ResponseWithError 415 (some (str "unsupported content type")))] ∧
    Router.resetPassword sampleLib (routerOn sampleStore)
        { Method := MethodPut, ContentType := str "application/json",
          ParseForm := .ok (formOf (str "user@example.com") (str "NewPass1")) } =
      [.JSONResponse (ResponseWithError 415 (some (str "unsupported content type")))] :=
  ⟨((C5_content_type_gate sampleLib (routerOn sampleStore)
        { Method := MethodPost, ContentType := str "application/json",
          ParseForm := .ok (formOf (str "user@example.com") (str "Passw0rd")) }).1
      (by decide) (by decide) (by decide)).1 rfl,
   ((C5_content_type_gate sampleLib (routerOn sampleStore)
        { Method := MethodPut, ContentType := str "application/json",
          ParseForm := .ok (formOf (str "user@example.com") (str "NewPass1")) }).1
      (by decide) (by decide) (by decide)).2 rfl⟩

/-- C6: when the form is parsed and its username field or its password field is absent, or
present with an empty first value (the username after trimming), signup (method POST) and
resetPassword (method PUT) write one response, of code 400, and do not call the use-case.
In every run, a use-case is called only when the form was parsed, both fields were found and
`ValidateEmail` and `ValidatePassword` both returned nil on the extracted values. -/
theorem C6_use_case_guarded (L : Lib) (r : Router) (req : Request) :
    (∀ form, req.ParseForm = .ok form →
      unsupportedContentType req.ContentType = false →
      (fieldBlank L form (str "username") TrimSpace = true ∨
        fieldBlank L form (str "password") id = true) →
      (req.Method = MethodPost →
        ∃ resp, Router.signup L r req = [.ParseForm, .JSONResponse resp] ∧ resp.Code = 400 ∧
          callsUseCase (Router.signup L r req) = false) ∧
      (req.Method = MethodPut →
        ∃ resp, Router.resetPassword L r req = [.ParseForm, .JSONResponse resp] ∧
          resp.Code = 400 ∧ callsUseCase (Router.resetPassword L r req) = false)) ∧
    ((callsUseCase (Router.signup L r req) = true ∨
        callsUseCase (Router.resetPassword L r req) = true) →
      ∃ form, req.ParseForm = .ok form ∧
        (extractFields L form).foundEmail = true ∧
        (extractFields L form).foundPassword = true ∧
        ValidateEmail L (extractFields L form).email = none ∧
        ValidatePassword L (extractFields L form).password = none) := by
  constructor
  · intro form hform hu hblank
    obtain ⟨resp, hresp⟩ := readCredentials_blank L req form hform hblank
    have hcode := readCredentials_error L req resp hresp
    constructor
    · intro hm
      have ht : Router.signup L r req = [.ParseForm, .JSONResponse resp] := by
        rw [signup_passed L r req hm hu, hresp]
      exact ⟨resp, ht, hcode, by rw [ht]; rfl⟩
    · intro hm
      have ht : Router.resetPassword L r req = [.ParseForm, .JSONResponse resp] := by
        rw [reset_passed L r req hm hu, hresp]
      exact ⟨resp, ht, hcode, by rw [ht]; rfl⟩
  · intro hcall
    have hf : ∃ f, readCredentials L req = .ok f := by
      rcases hcall with h | h
      · exact (signup_calls L r req h).2.2
      · exact (reset_calls L r req h).2.2
    obtain ⟨f, hf⟩ := hf
    obtain ⟨form, hform, hfe, h1, h2, h3, h4⟩ := readCredentials_ok L req f hf
    subst hfe
    exact ⟨form, hform, h1, h2, h3, h4⟩

/-- C6 on a signup without a password field and on a reset whose username is two spaces:
both are answered with code 400. -/
theorem C6_use_case_guarded_witness :
    (∃ resp, Router.signup sampleLib (routerOn sampleStore)
        { Method := MethodPost, ContentType := str "application/x-www-form-urlencoded",
          ParseForm := .ok [(str "username", [str "user@example.com"])] } =
      [.ParseForm, .JSONResponse resp] ∧ resp.Code = 400 ∧
      callsUseCase (Router.signup sampleLib (routerOn sampleStore)
        { Method := MethodPost, ContentType := str "application/x-www-form-urlencoded",
          ParseForm := .ok [(str "username", [str "user@example.com"])] }) = false) ∧
    (∃ resp, Router.resetPassword sampleLib (routerOn sampleStore)
        (requestOf MethodPut (str "  ") (str "NewPass1")) =
      [.ParseForm, .JSONResponse resp] ∧ resp.Code = 400 ∧
      callsUseCase (Router.resetPassword sampleLib (routerOn sampleStore)
        (requestOf MethodPut (str "  ") (str "NewPass1"))) = false) :=
  ⟨((C6_use_case_guarded sampleLib (routerOn sampleStore)
        { Method := MethodPost, ContentType := str "application/x-www-form-urlencoded",
          ParseForm := .ok [(str "username", [str "user@example.com"])] }).1
      _ rfl (by decide) (Or.inr (by decide))).1 rfl,
   ((C6_use_case_guarded sampleLib (routerOn sampleStore)
        (requestOf MethodPut (str "  ") (str "NewPass1"))).1
      _ rfl (by decide) (Or.inl (by decide))).2 rfl⟩

/-- C7: in every run of resetPassword in which `api.Reset` is called and returns an error,
the only response written has status 404 and the error string
`user not found or password update failed`; so any two such runs, whatever error each `Reset`
returned, write the same responses. -/
theorem C7_reset_error_uniform (L L' : Lib) (r r' : Router) (req req' : Request)
    (email password err email' password' err' : GoString)
    (hcall : Event.Reset email password ∈ Router.resetPassword L r req)
    (herr : API.Reset L r.api email password = .returned (some err))
    (hcall' : Event.Reset email' password' ∈ Router.resetPassword L' r' req')
    (herr' : API.Reset L' r'.api email' password' = .returned (some err')) :
    responses (Router.resetPassword L r req) =
      [{ Code := 404, Error := str "user not found or password update failed", Msg := none,
         Status := str "Not Found" }] ∧
    responses (Router.resetPassword L' r' req') = responses (Router.resetPassword L r req) := by
  have key : ∀ (L : Lib) (r : Router) (req : Request) (email password err : GoString),
      Event.Reset email password ∈ Router.resetPassword L r req →
      API.Reset L r.api email password = .returned (some err) →
      responses (Router.resetPassword L r req) =
        [{ Code := 404, Error := str "user not found or password update failed", Msg := none,
           Status := str "Not Found" }] := by
    intro L r req email password err hcall herr
    obtain ⟨hm, hu, f, hf, he, hp⟩ := reset_mem L r req email password hcall
    subst he hp
    rw [reset_passed L r req hm hu, hf]
    simp only [herr]
    rfl
  exact ⟨key L r req email password err hcall herr,
    (key L' r' req' email' password' err' hcall' herr').trans
      (key L r req email password err hcall herr).symm⟩

/-- C7 on two resets: one for a user that the store does not have, one on a store that
fails; both write the same 404 response. -/
theorem C7_reset_error_uniform_witness :
    responses (Router.resetPassword sampleLib (routerOn emptyStore)
        (requestOf MethodPut (str "ghost@example.com") (str "NewPass1"))) =
      [{ Code := 404, Error := str "user not found or password update failed", Msg := none,
         Status := str "Not Found" }] ∧
    responses (Router.resetPassword sampleLib (routerOn brokenStore)
        (requestOf MethodPut (str "user@example.com") (str "NewPass1"))) =
      responses (Router.resetPassword sampleLib (routerOn emptyStore)
        (requestOf MethodPut (str "ghost@example.com") (str "NewPass1"))) :=
  C7_reset_error_uniform sampleLib sampleLib (routerOn emptyStore) (routerOn brokenStore)
    (requestOf MethodPut (str "ghost@example.com") (str "NewPass1"))
    (requestOf MethodPut (str "user@example.com") (str "NewPass1"))
    (str "ghost@example.com") (str "NewPass1") (str "user not found: ghost@example.com")
    (str "user@example.com") (str "NewPass1")
    (str "failed to update password: database is locked")
    (by decide) (by decide) (by decide) (by decide)

/-- C8, as stated, fails: with a username whose quoted local part contains the text
`UNIQUE constraint`, on a store whose statement succeeds and affects no row, `api.Signup`
returns `failed to create user: ` followed by the username, and the handler answers with 409
`user already exists`, although the store reported no uniqueness violation. -/
theorem C8_marker_in_username_is_409 :
    ValidateEmail quotingLib (str "\x22UNIQUE constraint\x22@example.com") = none ∧
    (∀ query args, emptyStore.Exec query args = .ok (.ok 0)) ∧
    API.Signup quotingLib (routerOn emptyStore).api
        (str "\x22UNIQUE constraint\x22@example.com") (str "Passw0rd") =
      .returned (some (str "failed to create user: \x22UNIQUE constraint\x22@example.com")) ∧
    Router.signup quotingLib (routerOn emptyStore)
        (requestOf MethodPost (str "\x22UNIQUE constraint\x22@example.com") (str "Passw0rd")) =
      [.ParseForm, .Signup (str "\x22UNIQUE constraint\x22@example.com") (str "Passw0rd"),
       .JSONResponse
         { Code := 409, Error := str "user already exists", Msg := none,
           Status := str "Conflict" }] :=
  ⟨by decide, fun _ _ => rfl, by decide, by decide⟩

/-- C8, amended: in every run of signup in which `api.Signup` is called, an error that it
returns is answered with one of two fixed responses, 409 `user already exists` when the text of
the error contains `UNIQUE constraint` and 500 `failed to create user` otherwise, and neither
error string contains the text of the error returned; a nil result is answered with 201 and the
message `Signup Successful`. In terms of the store, once the password is hashed: a failure of
the statement is answered with 409 when its text contains `UNIQUE constraint` and with 500
otherwise, and so is a failure of `RowsAffected`; one affected row is answered with 201; any
other number of rows with 500, or with 409 when the username contains `UNIQUE constraint`. A
failure of the hashing is answered with 500, or with 409 when its text contains
`UNIQUE constraint`. -/
theorem C8_signup_responses (L : Lib) (r : Router) (req : Request) (email password : GoString)
    (hcall : Event.Signup email password ∈ Router.signup L r req) :
    (∀ err, API.Signup L r.api email password = .returned (some err) →
      responses (Router.signup L r req) =
        [if Contains err (str "UNIQUE constraint") then
          { Code := 409, Error := str "user already exists", Msg := none,
            Status := str "Conflict" }
         else
          { Code := 500, Error := str "failed to create user", Msg := none,
            Status := str "Internal Server Error" }] ∧
      Contains (str "user already exists") err = false ∧
      Contains (str "failed to create user") err = false) ∧
    (∀ db hash e, r.api = some { db := some db } → HashPassword L password = .ok hash →
      db.Exec CreateUser [.text email, .text hash, .int L.now] = .error e →
      Contains e (str "UNIQUE constraint") = true →
      responses (Router.signup L r req) =
        [{ Code := 409, Error := str "user already exists", Msg := none,
           Status := str "Conflict" }]) ∧
    (API.Signup L r.api email password = .returned none →
      responses (Router.signup L r req) =
        [{ Code := 201, Error := [], Msg := some (str "Signup Successful"),
           Status := str "Created" }]) ∧
    (∀ db hash, r.api = some { db := some db } → HashPassword L password = .ok hash →
      responses (Router.signup L r req) =
        match db.Exec CreateUser [.text email, .text hash, .int L.now] with
        | .error e =>
          [if Contains e (str "UNIQUE constraint") then
            { Code := 409, Error := str "user already exists", Msg := none,
              Status := str "Conflict" }
           else
            { Code := 500, Error := str "failed to create user", Msg := none,
              Status := str "Internal Server Error" }]
        | .ok (.error e) =>
          [if Contains e (str "UNIQUE constraint") then
            { Code := 409, Error := str "user already exists", Msg := none,
              Status := str "Conflict" }
           else
            { Code := 500, Error := str "failed to create user", Msg := none,
              Status := str "Internal Server Error" }]
        | .ok (.ok rows) =>
          if rows = 1 then
            [{ Code := 201, Error := [], Msg := some (str "Signup Successful"),
               Status := str "Created" }]
          else
            [if Contains email (str "UNIQUE constraint") then
              { Code := 409, Error := str "user already exists", Msg := none,
                Status := str "Conflict" }
             else
              { Code := 500, Error := str "failed to create user", Msg := none,
                Status := str "Internal Server Error" }]) ∧
    (∀ err, HashPassword L password = .error err →
      responses (Router.signup L r req) =
        [if Contains err (str "UNIQUE constraint") then
          { Code := 409, Error := str "user already exists", Msg := none,
            Status := str "Conflict" }
         else
          { Code := 500, Error := str "failed to create user", Msg := none,
            Status := str "Internal Server Error" }]) := by
  obtain ⟨hm, hu, f, hf, he, hp⟩ := signup_mem L r req email password hcall
  subst he hp
  have hrun := signup_passed L r req hm hu
  rw [hf] at hrun
  have herr : ∀ err, API.Signup L r.api f.email f.password = .returned (some err) →
      responses (Router.signup L r req) =
        [if Contains err (str "UNIQUE constraint") then
          { Code := 409, Error := str "user already exists", Msg := none,
            Status := str "Conflict" }
         else
          { Code := 500, Error := str "failed to create user", Msg := none,
            Status := str "Internal Server Error" }] := by
    intro err h
    rw [hrun]
    simp only [h]
    split_ifs <;> rfl
  have hnil : API.Signup L r.api f.email f.password = .returned none →
      responses (Router.signup L r req) =
        [{ Code := 201, Error := [], Msg := some (str "Signup Successful"),
           Status := str "Created" }] := by
    intro h
    rw [hrun]
    simp only [h]
    rfl
  refine ⟨?_, ?_, hnil, ?_, ?_⟩
  · intro err h
    have hcolon := signup_error_colon L r.api f.email f.password err h
    refine ⟨herr err h, ?_, ?_⟩
    · cases hc : Contains (str "user already exists") err with
      | false => rfl
      | true => exact absurd (contains_mem _ _ hc _ hcolon) (by decide)
    · cases hc : Contains (str "failed to create user") err with
      | false => rfl
      | true => exact absurd (contains_mem _ _ hc _ hcolon) (by decide)
  · intro db hash e hapi hhash hexec hunique
    have h : API.Signup L r.api f.email f.password =
        .returned (some (str "failed to create user: " ++ e)) := by
      simp only [API.Signup, hhash, hapi, Option.bind, hexec]
    rw [herr _ h, contains_append_left _ _ _ hunique]
    rfl
  · intro db hash hapi hhash
    cases hexec : db.Exec CreateUser [.text f.email, .text hash, .int L.now] with
    | error e =>
      have h : API.Signup L r.api f.email f.password =
          .returned (some (str "failed to create user: " ++ e)) := by
        simp only [API.Signup, hhash, hapi, Option.bind, hexec]
      rw [herr _ h, marker_skip _ _ (by decide)]
    | ok result =>
      cases result with
      | error e =>
        have h : API.Signup L r.api f.email f.password =
            .returned (some (str "failed to get rows affected: " ++ e)) := by
          simp only [API.Signup, hhash, hapi, Option.bind, hexec]
        rw [herr _ h, marker_skip _ _ (by decide)]
      | ok rows =>
        by_cases hrows : rows = 1
        · have h : API.Signup L r.api f.email f.password = .returned none := by
            simp [API.Signup, hhash, hapi, Option.bind, hexec, hrows]
          rw [hnil h]
          simp only [hrows, if_true]
        · have h : API.Signup L r.api f.email f.password =
              .returned (some (str "failed to create user: " ++ f.email)) := by
            simp [API.Signup, hhash, hapi, Option.bind, hexec, hrows]
          rw [herr _ h, marker_skip _ _ (by decide)]
          simp only [hrows, if_false]
  · intro err hhash
    have h : API.Signup L r.api f.email f.password =
        .returned (some (str "failed to hash password: " ++ err)) := by
      simp only [API.Signup, hhash]
    rw [herr _ h, marker_skip _ _ (by decide)]

/-- The amended C8 on signups at four stores: one that reports the uniqueness violation (409),
one whose statement affects one row (201), one that cannot be reached (500), and one whose
statement affects no row (500). -/
theorem C8_signup_responses_witness :
    responses (Router.signup sampleLib (routerOn duplicateStore)
        (requestOf MethodPost (str "user@example.com") (str "Passw0rd"))) =
      [{ Code := 409, Error := str "user already exists", Msg := none,
         Status := str "Conflict" }] ∧
    responses (Router.signup sampleLib (routerOn sampleStore)
        (requestOf MethodPost (str "user@example.com") (str "Passw0rd"))) =
      [{ Code := 201, Error := [], Msg := some (str "Signup Successful"),
         Status := str "Created" }] ∧
    responses (Router.signup sampleLib (routerOn brokenStore)
        (requestOf MethodPost (str "user@example.com") (str "Passw0rd"))) =
      [{ Code := 500, Error := str "failed to create user", Msg := none,
         Status := str "Internal Server Error" }] ∧
    responses (Router.signup sampleLib (routerOn emptyStore)
        (requestOf MethodPost (str "user@example.com") (str "Passw0rd"))) =
      [{ Code := 500, Error := str "failed to create user", Msg := none,
         Status := str "Internal Server Error" }] :=
  ⟨(C8_signup_responses sampleLib (routerOn duplicateStore)
      (requestOf MethodPost (str "user@example.com") (str "Passw0rd"))
      (str "user@example.com") (str "Passw0rd") (by decide)).2.1
      duplicateStore _ (str "UNIQUE constraint failed: users.email") rfl rfl rfl (by decide),
   (C8_signup_responses sampleLib (routerOn sampleStore)
      (requestOf MethodPost (str "user@example.com") (str "Passw0rd"))
      (str "user@example.com") (str "Passw0rd") (by decide)).2.2.2.1
      sampleStore _ rfl rfl,
   (C8_signup_responses sampleLib (routerOn brokenStore)
      (requestOf MethodPost (str "user@example.com") (str "Passw0rd"))
      (str "user@example.com") (str "Passw0rd") (by decide)).2.2.2.1
      brokenStore _ rfl rfl,
   (C8_signup_responses sampleLib (routerOn emptyStore)
      (requestOf MethodPost (str "user@example.com") (str "Passw0rd"))
      (str "user@example.com") (str "Passw0rd") (by decide)).2.2.2.1
      emptyStore _ rfl rfl⟩

/-- C9, as stated, fails for resetPassword: a reset with a valid address and a password of 73
bytes passes every check, `HashPassword` fails inside `api.Reset`, and the handler answers
with 404. -/
theorem C9_reset_hash_failure_is_404 :
    HashPassword sampleLib (plain 73) = .error bcryptErrPasswordTooLong ∧
    Router.resetPassword sampleLib (routerOn sampleStore)
        (requestOf MethodPut (str "user@example.com") (plain 73)) =
      [.ParseForm, .Reset (str "user@example.com") (plain 73),
       .LogError (str "password reset failed")
         [(str "error", str "failed to hash password: bcrypt: password length exceeds 72 bytes"),
          (str "email", str "user@example.com")],
       .JSONResponse
         { Code := 404, Error := str "user not found or password update failed", Msg := none,
           Status := str "Not Found" }] := by
  refine ⟨rfl, by decide⟩

/-- C9, amended: on a request that passes the content-type, field-presence and validation
checks, a failure of `HashPassword` inside the use-case is answered by signup (method POST)
with status 500 and the fixed string `failed to create user`, provided the text of the hashing
error does not contain `UNIQUE constraint`, and by resetPassword (method PUT) with status 404
and the fixed string `user not found or password update failed`, as every failure of `Reset`
is. The error of a password of more than 72 bytes is the one of `bcrypt`, whose text does not
contain `UNIQUE constraint`. -/
theorem C9_hash_failure_response (L : Lib) (r : Router) (req : Request) (f : Fields)
    (err : GoString) (hu : unsupportedContentType req.ContentType = false)
    (hf : readCredentials L req = .ok f) (hhash : HashPassword L f.password = .error err) :
    (req.Method = MethodPost → Contains err (str "UNIQUE constraint") = false →
      responses (Router.signup L r req) =
        [{ Code := 500, Error := str "failed to create user", Msg := none,
           Status := str "Internal Server Error" }]) ∧
    (req.Method = MethodPut →
      responses (Router.resetPassword L r req) =
        [{ Code := 404, Error := str "user not found or password update failed", Msg := none,
           Status := str "Not Found" }]) ∧
    (f.password.length > 72 →
      err = bcryptErrPasswordTooLong ∧ Contains err (str "UNIQUE constraint") = false) := by
  refine ⟨?_, ?_, ?_⟩
  · intro hm hc
    have h : API.Signup L r.api f.email f.password =
        .returned (some (str "failed to hash password: " ++ err)) := by
      simp only [API.Signup, hhash]
    have hc' : Contains (str "failed to hash password: " ++ err) (str "UNIQUE constraint") =
        false := by
      have e : str "UNIQUE constraint" = 0x55 :: str "NIQUE constraint" := by decide
      rw [e, contains_append_skip _ _ _ _ (by decide), ← e]
      exact hc
    rw [signup_passed L r req hm hu, hf]
    simp only [h, hc']
    rfl
  · intro hm
    have h : API.Reset L r.api f.email f.password =
        .returned (some (str "failed to hash password: " ++ err)) := by
      simp only [API.Reset, hhash]
    rw [reset_passed L r req hm hu, hf]
    simp only [h]
    rfl
  · intro hlen
    have h := hashPassword_long L f.password hlen
    rw [hhash] at h
    cases h
    exact ⟨rfl, by decide⟩

/-- The amended C9 on a signup and a reset with a password of 73 bytes: 500 and 404. -/
theorem C9_hash_failure_response_witness :
    responses (Router.signup sampleLib (routerOn sampleStore)
        (requestOf MethodPost (str "user@example.com") (plain 73))) =
      [{ Code := 500, Error := str "failed to create user", Msg := none,
         Status := str "Internal Server Error" }] ∧
    responses (Router.resetPassword sampleLib (routerOn sampleStore)
        (requestOf MethodPut (str "user@example.com") (plain 73))) =
      [{ Code := 404, Error := str "user not found or password update failed", Msg := none,
         Status := str "Not Found" }] :=
  ⟨(C9_hash_failure_response sampleLib (routerOn sampleStore)
      (requestOf MethodPost (str "user@example.com") (plain 73))
      { email := str "user@example.com", password := plain 73, foundEmail := true,
        foundPassword := true }
      bcryptErrPasswordTooLong (by decide) rfl rfl).1 rfl (by decide),
   (C9_hash_failure_response sampleLib (routerOn sampleStore)
      (requestOf MethodPut (str "user@example.com") (plain 73))
      { email := str "user@example.com", password := plain 73, foundEmail := true,
        foundPassword := true }
      bcryptErrPasswordTooLong (by decide) rfl rfl).2.1 rfl⟩

/-- C10, as stated, fails for `ResponseWithError` with a nil error, and with an error of empty
text: neither `msg` nor `error` is set, and the serialized envelope has neither key. -/
theorem C10_nil_error_has_neither :
    ¬ oneOfMsgError (ResponseWithError 500 none) ∧
    jsonKeys (ResponseWithError 500 none) = ["code", "status"] ∧
    ¬ oneOfMsgError (ResponseWithError 500 (some [])) ∧
    jsonKeys (ResponseWithError 500 (some [])) = ["code", "status"] := by
  refine ⟨by decide, by decide, by decide, by decide⟩

/-- C10, amended: a response built by `ResponseWithMsg` has `msg` set and `error` empty, so
the keys `code`, `msg`, `status`; a response built by `ResponseWithError` has `msg` nil, and
`error` non-empty exactly when the error passed is not nil and has a non-empty text; in both the
code is the status passed and the status is `http.StatusText` of it. Every response that pong,
health, signup and resetPassword write has exactly one of `msg` and `error` set, and the
reason phrase of its code as status. -/
theorem C10_envelope (L : Lib) (r : Router) (req : Request) (status : Int) (msg : GoString)
    (err : Option GoString) :
    (oneOfMsgError (ResponseWithMsg status msg) ∧
      jsonKeys (ResponseWithMsg status msg) = ["code", "msg", "status"] ∧
      (ResponseWithMsg status msg).Code = status ∧
      (ResponseWithMsg status msg).Status = StatusText status) ∧
    ((ResponseWithError status err).Msg = none ∧
      (oneOfMsgError (ResponseWithError status err) ↔ ∃ e, err = some e ∧ e ≠ []) ∧
      (oneOfMsgError (ResponseWithError status err) ↔
        jsonKeys (ResponseWithError status err) = ["code", "error", "status"]) ∧
      (ResponseWithError status err).Code = status ∧
      (ResponseWithError status err).Status = StatusText status) ∧
    (∀ resp, (resp ∈ responses (Router.pong r) ∨ resp ∈ responses (Router.health r) ∨
        resp ∈ responses (Router.signup L r req) ∨
        resp ∈ responses (Router.resetPassword L r req)) →
      oneOfMsgError resp ∧ resp.Status = StatusText resp.Code) := by
  refine ⟨⟨Or.inl ⟨by simp [ResponseWithMsg], rfl⟩, rfl, rfl, rfl⟩, ⟨rfl, ?_, ?_, rfl, rfl⟩, ?_⟩
  · cases err with
    | none => simp [oneOfMsgError, ResponseWithError]
    | some e => simp [oneOfMsgError, ResponseWithError]
  · cases err with
    | none => simp [oneOfMsgError, ResponseWithError, jsonKeys]
    | some e =>
      by_cases he : e = [] <;> simp [oneOfMsgError, ResponseWithError, jsonKeys, he]
  · intro resp h
    rcases h with h | h | h | h
    · simp only [Router.pong, responses, List.mem_singleton] at h
      subst h
      exact ⟨by decide, rfl⟩
    · unfold Router.health at h
      split at h
      · split at h <;>
          (simp only [responses, List.mem_singleton] at h
           subst h
           exact ⟨by decide, rfl⟩)
      · simp only [responses, List.mem_singleton] at h
        subst h
        exact ⟨by decide, rfl⟩
    · unfold Router.signup at h
      split_ifs at h
      · simp only [responses, List.mem_singleton] at h
        subst h
        exact ⟨by decide, rfl⟩
      · simp only [responses, List.mem_singleton] at h
        subst h
        exact ⟨by decide, rfl⟩
      · split at h
        · rename_i resp' hresp
          simp only [responses, List.mem_singleton] at h
          subst h
          exact readCredentials_error_shape L req _ hresp
        · split at h
          · simp [responses] at h
          · split_ifs at h <;>
              (simp only [responses, List.mem_singleton] at h
               subst h
               exact ⟨by decide, rfl⟩)
          · simp only [responses, List.mem_singleton] at h
            subst h
            exact ⟨by decide, rfl⟩
    · unfold Router.resetPassword at h
      split_ifs at h
      · simp only [responses, List.mem_singleton] at h
        subst h
        exact ⟨by decide, rfl⟩
      · simp only [responses, List.mem_singleton] at h
        subst h
        exact ⟨by decide, rfl⟩
      · split at h
        · rename_i resp' hresp
          simp only [responses, List.mem_singleton] at h
          subst h
          exact readCredentials_error_shape L req _ hresp
        · split at h
          · simp [responses] at h
          · simp only [responses, List.mem_singleton] at h
            subst h
            exact ⟨by decide, rfl⟩
          · simp only [responses, List.mem_singleton] at h
            subst h
            exact ⟨by decide, rfl⟩

/-- The amended C10 on the response of a signup that the store refuses as a duplicate. -/
theorem C10_envelope_witness :
    oneOfMsgError
        { Code := 409, Error := str "user already exists", Msg := none,
          Status := str "Conflict" } ∧
      (str "Conflict" : GoString) = StatusText 409 :=
  (C10_envelope sampleLib (routerOn duplicateStore)
    (requestOf MethodPost (str "user@example.com") (str "Passw0rd")) 200 [] none).2.2
    { Code := 409, Error := str "user already exists", Msg := none, Status := str "Conflict" }
    (Or.inr (Or.inr (Or.inl (by decide))))

/-- The loop body commutes on two entries that do not compete for a field: they do not both
carry a value under keys equal to `username` ignoring case, nor both under keys equal to
`password`. -/
theorem extractStep_comm (L : Lib) (x y : GoString × List GoString) (z : Fields)
    (hu : ¬ (x.2 ≠ [] ∧ y.2 ≠ [] ∧ L.EqualFold x.1 (str "username") = true ∧
      L.EqualFold y.1 (str "username") = true))
    (hp : ¬ (x.2 ≠ [] ∧ y.2 ≠ [] ∧ L.EqualFold x.1 (str "password") = true ∧
      L.EqualFold y.1 (str "password") = true)) :
    extractStep L (extractStep L z x) y = extractStep L (extractStep L z y) x := by
  obtain ⟨kx, vx⟩ := x
  obtain ⟨ky, vy⟩ := y
  cases vx with
  | nil => rfl
  | cons x0 xs =>
    cases vy with
    | nil => rfl
    | cons y0 ys =>
      simp only [ne_eq, reduceCtorEq, not_false_eq_true, true_and, not_and,
        Bool.not_eq_true] at hu hp
      unfold extractStep
      dsimp only
      cases hxu : L.EqualFold kx (str "username") <;>
        cases hyu : L.EqualFold ky (str "username") <;>
        cases hxp : L.EqualFold kx (str "password") <;>
        cases hyp : L.EqualFold ky (str "password") <;>
        simp_all

/-- When no two entries of a form compete for a field, the fields extracted do not depend on
the order in which the entries are visited. -/
theorem extractFields_perm (L : Lib) (form form' : Form) (hperm : form.Perm form')
    (huniq : ∀ x ∈ form, ∀ y ∈ form, x ≠ y →
      ¬ (x.2 ≠ [] ∧ y.2 ≠ [] ∧ L.EqualFold x.1 (str "username") = true ∧
        L.EqualFold y.1 (str "username") = true) ∧
      ¬ (x.2 ≠ [] ∧ y.2 ≠ [] ∧ L.EqualFold x.1 (str "password") = true ∧
        L.EqualFold y.1 (str "password") = true)) :
    extractFields L form = extractFields L form' := by
  unfold extractFields
  apply List.Perm.foldl_eq' hperm
  intro x hx y hy z
  by_cases hxy : x = y
  · rw [hxy]
  · exact extractStep_comm L x y z (huniq x hx y hy hxy).1 (huniq x hx y hy hxy).2

/-- C11 fails on the code: the form with the keys `username`, `Username` and `password`, visited
in two orders, gives two different usernames, and signup hands each to the use-case; the form
with the keys `username`, `password` and `PASSWORD` gives two different passwords in
resetPassword. -/
theorem C11_extraction_depends_on_order :
    List.Perm
      [(str "username", [str "a@example.com"]), (str "Username", [str "b@example.com"]),
       (str "password", [str "Passw0rd"])]
      [(str "Username", [str "b@example.com"]), (str "username", [str "a@example.com"]),
       (str "password", [str "Passw0rd"])] ∧
    Router.signup sampleLib (routerOn sampleStore)
        { Method := MethodPost, ContentType := str "application/x-www-form-urlencoded",
          ParseForm := .ok
            [(str "username", [str "a@example.com"]), (str "Username", [str "b@example.com"]),
             (str "password", [str "Passw0rd"])] } =
      [.ParseForm, .Signup (str "b@example.com") (str "Passw0rd"),
       .JSONResponse (ResponseWithMsg 201 (str "Signup Successful"))] ∧
    Router.signup sampleLib (routerOn sampleStore)
        { Method := MethodPost, ContentType := str "application/x-www-form-urlencoded",
          ParseForm := .ok
            [(str "Username", [str "b@example.com"]), (str "username", [str "a@example.com"]),
             (str "password", [str "Passw0rd"])] } =
      [.ParseForm, .Signup (str "a@example.com") (str "Passw0rd"),
       .JSONResponse (ResponseWithMsg 201 (str "Signup Successful"))] ∧
    List.Perm
      [(str "username", [str "a@example.com"]), (str "password", [str "Passw0rd"]),
       (str "PASSWORD", [str "NewPass1"])]
      [(str "username", [str "a@example.com"]), (str "PASSWORD", [str "NewPass1"]),
       (str "password", [str "Passw0rd"])] ∧
    Router.resetPassword sampleLib (routerOn sampleStore)
        { Method := MethodPut, ContentType := str "application/x-www-form-urlencoded",
          ParseForm := .ok
            [(str "username", [str "a@example.com"]), (str "password", [str "Passw0rd"]),
             (str "PASSWORD", [str "NewPass1"])] } =
      [.ParseForm, .Reset (str "a@example.com") (str "NewPass1"),
       .JSONResponse (ResponseWithMsg 200 (str "Password Updated"))] ∧
    Router.resetPassword sampleLib (routerOn sampleStore)
        { Method := MethodPut, ContentType := str "application/x-www-form-urlencoded",
          ParseForm := .ok
            [(str "username", [str "a@example.com"]), (str "PASSWORD", [str "NewPass1"]),
             (str "password", [str "Passw0rd"])] } =
      [.ParseForm, .Reset (str "a@example.com") (str "Passw0rd"),
       .JSONResponse (ResponseWithMsg 200 (str "Password Updated"))] :=
  ⟨List.Perm.swap _ _ _, by decide, by decide,
   List.Perm.cons _ (List.Perm.swap _ _ _), by decide, by decide⟩

end Credential
